import Mathlib

/-!
Verification of the star-system generator
(`src/app/server/modules/locations/star_system_generator_v7.py`).

The Python program and the JavaScript it emits are shallowly embedded here:
machine floats become real numbers (`ℝ`), so float rounding and NaN/Infinity
special cases are out of scope; the mutable body list becomes explicit state
passing; the process-level pseudo-random generator `random.uniform(0, 2*pi)`
becomes an explicit stream `rand : ℕ → ℝ` consumed draw by draw.
-/

namespace StarSystem

/-- A celestial body record, mirroring `CelestialBodyConfig` (the fields the
layout resolver, scene composer and animation engine read; presentation-only
strings such as colors and tooltip text are omitted).  `x, y, parent_x,
parent_y` start at 0 and are written by the layout resolver. -/
structure Body where
  name : String
  type : String
  parent : String
  orbit_distance : ℝ
  radius : ℝ
  angle : ℝ
  has_start_position : Bool
  show_label : Bool
  orbit_shape : String
  orbit_eccentricity : ℝ
  orbit_rotation : ℝ
  ring_width : ℝ
  x : ℝ
  y : ℝ
  parent_x : ℝ
  parent_y : ℝ

/-- Embedding of `CelestialBodyConfig.__init__` for the fields modelled here:
an explicit `start_position` of `d` degrees is converted by
`math.radians(d - 90)` (0° = top), and sets `has_start_position`; otherwise
the angle starts at 0.  Position fields start at 0. -/
noncomputable def mkBody (name type parent : String) (orbit_distance radius : ℝ)
    (startPosition : Option ℝ) (show_label : Bool) (orbit_shape : String)
    (orbit_eccentricity orbit_rotation ring_width : ℝ) : Body where
  name := name
  type := type
  parent := parent
  orbit_distance := orbit_distance
  radius := radius
  angle :=
    match startPosition with
    | some degrees => (degrees - 90) * Real.pi / 180
    | none => 0
  has_start_position := startPosition.isSome
  show_label := show_label
  orbit_shape := orbit_shape
  orbit_eccentricity := orbit_eccentricity
  orbit_rotation := orbit_rotation
  ring_width := ring_width
  x := 0
  y := 0
  parent_x := 0
  parent_y := 0

/-! ## Layout resolver (`CSVStarSystemGenerator.calculate_positions`) -/

/-- The first loop's mutation: the primary star is put at the scene center with
`angle = 0` and its own position recorded as its parent position. -/
def setPrimary (cx cy : ℝ) (b : Body) : Body :=
  { b with x := cx, y := cy, parent_x := cx, parent_y := cy, angle := 0 }

/-- First loop of `calculate_positions`: scan for the first star with an empty
parent and place it at the scene center (the loop `break`s after one match). -/
def placePrimary (cx cy : ℝ) : List Body → List Body
  | [] => []
  | b :: rest =>
      if b.type = "star" ∧ b.parent = "" then setPrimary cx cy b :: rest
      else b :: placePrimary cx cy rest

/-- Whether the first loop found a primary star (`primary_star` is not `None`). -/
def hasPrimaryStar (bs : List Body) : Bool :=
  bs.any fun b => b.type == "star" && b.parent == ""

/-- Second loop of `calculate_positions`: every star with a non-empty parent is
placed orbiting the primary star (at `(px, py)`, the scene center), drawing a
random angle when no start position was given.  The draw counter `k` indexes
into the random stream. -/
noncomputable def placeCompanions (rand : ℕ → ℝ) (hasPrimary : Bool) (px py : ℝ) :
    List Body → ℕ → List Body × ℕ
  | [], k => ([], k)
  | b :: rest, k =>
      if b.type = "star" ∧ b.parent ≠ "" ∧ hasPrimary = true then
        let theta := if b.has_start_position then b.angle else rand k
        let k1 := if b.has_start_position then k else k + 1
        let b1 := { b with
          angle := theta
          x := px + b.orbit_distance * Real.cos theta
          y := py + b.orbit_distance * Real.sin theta
          parent_x := px
          parent_y := py }
        let r := placeCompanions rand hasPrimary px py rest k1
        (b1 :: r.1, r.2)
      else
        let r := placeCompanions rand hasPrimary px py rest k
        (b :: r.1, r.2)

/-- The `body_lookup` dictionary `{body.name: body}`: for duplicate names the
later entry overwrites the earlier one, and values alias the live records, so
looking up in the current list state is the faithful reading. -/
def lookupBody (bs : List Body) (n : String) : Option Body :=
  (bs.filter fun b => b.name == n).getLast?

/-- The placement branch of a pass iteration: with the looked-up `parent` in
hand, the body at index `i` is placed relative to it provided the parent is
positioned (`x != 0 or y != 0`) or is the primary star. -/
noncomputable def passPlace (rand : ℕ → ℝ) (s : List Body × ℕ) (i : ℕ) (b : Body) :
    Option Body → List Body × ℕ
  | none => s
  | some parent =>
      if parent.x ≠ 0 ∨ parent.y ≠ 0 ∨ (parent.type = "star" ∧ parent.parent = "") then
        let theta := if b.has_start_position then b.angle else rand s.2
        let k1 := if b.has_start_position then s.2 else s.2 + 1
        let b1 := { b with
          angle := theta
          x := parent.x + b.orbit_distance * Real.cos theta
          y := parent.y + b.orbit_distance * Real.sin theta
          parent_x := parent.x
          parent_y := parent.y }
        (s.1.set i b1, k1)
      else s

/-- The body-level dispatch of `passStep` on the looked-up body at index `i`. -/
noncomputable def passBody (rand : ℕ → ℝ) (s : List Body × ℕ) (i : ℕ) :
    Option Body → List Body × ℕ
  | none => s
  | some b =>
      if b.x ≠ 0 ∨ b.y ≠ 0 then s
      else if b.parent = "" then s
      else passPlace rand s i b (lookupBody s.1 b.parent)

/-- One iteration of the inner loop of the multi-pass phase, acting on the
body at index `i` of the current state (body list plus random-draw counter):
skip bodies already positioned (`x != 0 or y != 0`), skip bodies whose parent
name is empty or not in the lookup, and otherwise place the body relative to
its parent. -/
noncomputable def passStep (rand : ℕ → ℝ) (s : List Body × ℕ) (i : ℕ) : List Body × ℕ :=
  passBody rand s i s.1[i]?

/-- One full pass `for body in self.bodies` of the multi-pass phase. -/
noncomputable def onePass (rand : ℕ → ℝ) (s : List Body × ℕ) : List Body × ℕ :=
  (List.range s.1.length).foldl (passStep rand) s

/-- The `for _ in range(max_passes)` loop. -/
noncomputable def runPasses (rand : ℕ → ℝ) : ℕ → List Body × ℕ → List Body × ℕ
  | 0, s => s
  | n + 1, s => runPasses rand n (onePass rand s)

/-- Embedding of `CSVStarSystemGenerator.calculate_positions` with scene center
`(cx, cy)` (the generator uses `width/2, height/2`): place the primary star,
place companion stars, then run 5 passes over all bodies. -/
noncomputable def calculate_positions (rand : ℕ → ℝ) (cx cy : ℝ)
    (bodies : List Body) : List Body :=
  let l1 := placePrimary cx cy bodies
  let s2 := placeCompanions rand (hasPrimaryStar bodies) cx cy l1 0
  (runPasses rand 5 s2).1

/-! ## Scene composer (`generate_svg`) -/

/-- Body kinds whose branch in the celestial-bodies loop emits an element
carrying the id `body-{body_id}` (the asteroid-ring branch emits only untagged
particles). -/
def taggedType (t : String) : Bool :=
  t == "star" || t == "planet" || t == "moon" || t == "station"

/-- The celestial-bodies loop of `generate_svg`: `body_id` is incremented for
every body; a pair `(n, b)` records that the element for `b` is tagged
`body-{n}`. -/
def svgBodyTagsAux : List Body → ℕ → List (ℕ × Body)
  | [], _ => []
  | b :: rest, n =>
      (if taggedType b.type then [(n, b)] else []) ++ svgBodyTagsAux rest (n + 1)

/-- The tagged per-body elements of the static scene, ids counted from 0. -/
def svgBodyTags (bodies : List Body) : List (ℕ × Body) :=
  svgBodyTagsAux bodies 0

/-- Body kinds that have a label branch in the labels loop (there is no branch
for moons). -/
def labeledType (t : String) : Bool :=
  t == "star" || t == "planet" || t == "station"

/-- The labels loop of `generate_svg`: asteroid rings and label-disabled bodies
are skipped with `label_id += 1; continue`; the remaining bodies emit a text
element `label-{label_id}` only in the star/planet/station branches, and
`label_id` is incremented at the end of every iteration. -/
def svgLabelsAux : List Body → ℕ → List (ℕ × Body)
  | [], _ => []
  | b :: rest, n =>
      if b.type == "asteroid_ring" || !b.show_label then svgLabelsAux rest (n + 1)
      else (if labeledType b.type then [(n, b)] else []) ++ svgLabelsAux rest (n + 1)

/-- The label elements of the static scene, ids counted from 0. -/
def svgLabels (bodies : List Body) : List (ℕ × Body) :=
  svgLabelsAux bodies 0

/-- The ellipse semi-minor axis of the orbit-path branch: the eccentricity is
capped at 0.99 and `b = a * sqrt(1 - e*e)` with `a` the orbit distance. -/
noncomputable def orbitEllipseSemiMinor (orbit_distance orbit_eccentricity : ℝ) : ℝ :=
  let e := min orbit_eccentricity 0.99
  orbit_distance * Real.sqrt (1 - e * e)

/-- Shape of a drawn orbit path. -/
inductive OrbitPathShape
  | circle (r : ℝ)
  | ellipse (a b rotationDegrees : ℝ)

/-- Orbit-path shape selection in `generate_svg`: an ellipse of semi-major axis
`orbit_distance` when `orbit_shape == 'ellipse'` and the eccentricity is
positive, otherwise a circle of radius `orbit_distance`. -/
noncomputable def orbitPathShape (b : Body) : OrbitPathShape :=
  if b.orbit_shape = "ellipse" ∧ b.orbit_eccentricity > 0 then
    .ellipse b.orbit_distance
      (orbitEllipseSemiMinor b.orbit_distance b.orbit_eccentricity) b.orbit_rotation
  else
    .circle b.orbit_distance

/-! ## Animation metadata (`generate_interactive_html`) -/

/-- One entry of the serialized `bodiesData` array (the fields the animation
and hit-testing code reads). -/
structure AnimBody where
  name : String
  type : String
  x : ℝ
  y : ℝ
  radius : ℝ
  orbit_radius : ℝ
  angle : ℝ
  parent_x : ℝ
  parent_y : ℝ
  id : ℕ
  orbit_shape : String
  orbit_eccentricity : ℝ
  orbit_rotation : ℝ

/-- The dict built for index `idx` of the enumeration: `'id': idx` and
`'orbit_radius': body.orbit_distance`. -/
def toAnimBody (idx : ℕ) (b : Body) : AnimBody where
  name := b.name
  type := b.type
  x := b.x
  y := b.y
  radius := b.radius
  orbit_radius := b.orbit_distance
  angle := b.angle
  parent_x := b.parent_x
  parent_y := b.parent_y
  id := idx
  orbit_shape := b.orbit_shape
  orbit_eccentricity := b.orbit_eccentricity
  orbit_rotation := b.orbit_rotation

/-- The `for idx, body in enumerate(self.bodies)` loop building `bodies_data`:
asteroid rings are skipped but `idx` still advances, so surviving entries keep
their pre-filter index as `id`. -/
def bodiesDataAux : List Body → ℕ → List AnimBody
  | [], _ => []
  | b :: rest, idx =>
      if b.type == "asteroid_ring" then bodiesDataAux rest (idx + 1)
      else toAnimBody idx b :: bodiesDataAux rest (idx + 1)

/-- The serialized animation metadata array. -/
def bodiesData (bodies : List Body) : List AnimBody :=
  bodiesDataAux bodies 0

/-! ## Hit-testing (`findClosestBody` in the generated script) -/

/-- On-scene distance from the pointer to a body,
`Math.sqrt(Math.pow(x - body.x, 2) + Math.pow(y - body.y, 2))`. -/
noncomputable def hoverDist (x y : ℝ) (b : AnimBody) : ℝ :=
  Real.sqrt ((x - b.x) ^ 2 + (y - b.y) ^ 2)

/-- The `bodiesData.forEach` accumulation of `findClosestBody`: the accumulator
is `none` while `minDist` is still `Infinity` (against which every distance
compares smaller), and `some (closest, minDist)` afterwards; a body only takes
over when `dist < max(radius * 2, 12)` and `dist < minDist` both hold. -/
noncomputable def findClosestAux (x y : ℝ) :
    List AnimBody → Option (AnimBody × ℝ) → Option (AnimBody × ℝ)
  | [], acc => acc
  | b :: rest, acc =>
      let dist := hoverDist x y b
      match acc with
      | none =>
          findClosestAux x y rest
            (if dist < max (b.radius * 2) 12 then some (b, dist) else none)
      | some p =>
          findClosestAux x y rest
            (if dist < max (b.radius * 2) 12 ∧ dist < p.2 then some (b, dist) else some p)

/-- Embedding of the generated `findClosestBody(x, y)`. -/
noncomputable def findClosestBody (x y : ℝ) (bs : List AnimBody) : Option AnimBody :=
  (findClosestAux x y bs none).map Prod.fst

/-! ## Animation tick (`animate` in the generated script) -/

/-- Angular speed `0.2 / Math.sqrt(Math.max(body.orbit_radius, 1))`, tripled
for moons. -/
noncomputable def tickSpeed (b : AnimBody) : ℝ :=
  let s := 0.2 / Real.sqrt (max b.orbit_radius 1)
  if b.type = "moon" then s * 3 else s

/-- Per-body update of one tick: advance the angle by `speed * dt` and
re-derive the position from the angle, on the rotated ellipse when
`orbit_shape == 'ellipse'` with positive eccentricity, else on the circle.
(The emitted script also drops the position write when it computes to NaN;
over `ℝ` that case does not arise.) -/
noncomputable def updateBody (dt : ℝ) (b : AnimBody) : AnimBody :=
  let angle1 := b.angle + tickSpeed b * dt
  let pos :=
    if b.orbit_shape = "ellipse" ∧ b.orbit_eccentricity > 0 then
      let a := b.orbit_radius
      let e := min b.orbit_eccentricity 0.99
      let bb := a * Real.sqrt (1 - e * e)
      let rotation := b.orbit_rotation * Real.pi / 180
      let x0 := a * Real.cos angle1
      let y0 := bb * Real.sin angle1
      (b.parent_x + (x0 * Real.cos rotation - y0 * Real.sin rotation),
       b.parent_y + (x0 * Real.sin rotation + y0 * Real.cos rotation))
    else
      (b.parent_x + b.orbit_radius * Real.cos angle1,
       b.parent_y + b.orbit_radius * Real.sin angle1)
  { b with angle := angle1, x := pos.1, y := pos.2 }

/-- The `isChild` kind test of the parent-propagation scan. -/
def isChildKind (parentType childType : String) : Bool :=
  (parentType == "planet" && (childType == "moon" || childType == "station")) ||
  (parentType == "star" && (childType == "planet" || childType == "star"))

/-- Parent propagation applied to one scanned body `o`: the moved body `p` has
already been written back (`body.x = newX`), so the distance test compares
`o`'s recorded parent position with `p`'s updated position, and on success the
recorded parent position becomes that updated position. -/
noncomputable def reparent (p : AnimBody) (o : AnimBody) : AnimBody :=
  if isChildKind p.type o.type = true ∧
      Real.sqrt ((o.parent_x - p.x) ^ 2 + (o.parent_y - p.y) ^ 2) < 1 then
    { o with parent_x := p.x, parent_y := p.y }
  else o

/-- One iteration of the tick's `bodiesData.forEach`, acting on index `i` of
the current array: bodies with `orbit_radius === 0` are skipped entirely;
otherwise the body is updated in place and, when it is a planet or star, the
whole array is re-scanned for children to re-parent. -/
noncomputable def tickBody (dt : ℝ) (bs : List AnimBody) (i : ℕ) :
    Option AnimBody → List AnimBody
  | none => bs
  | some b =>
      if b.orbit_radius = 0 then bs
      else
        let b1 := updateBody dt b
        let bs1 := bs.set i b1
        if b.type = "planet" ∨ b.type = "star" then bs1.map (reparent b1) else bs1

/-- The iteration of the tick's `forEach` at index `i` of the current array. -/
noncomputable def tickStep (dt : ℝ) (bs : List AnimBody) (i : ℕ) : List AnimBody :=
  tickBody dt bs i bs[i]?

/-- The tick's loop over all array indices in order. -/
noncomputable def animLoop (dt : ℝ) : ℕ → ℕ → List AnimBody → List AnimBody
  | 0, _, bs => bs
  | fuel + 1, i, bs => animLoop dt fuel (i + 1) (tickStep dt bs i)

/-- One animation tick with elapsed time `dt` (seconds): ticks with
`dt > 0.1` or `dt <= 0` are discarded (the NaN/Infinity cases of the guard
have no `ℝ` counterpart), otherwise every body is processed in order. -/
noncomputable def animate (dt : ℝ) (bs : List AnimBody) : List AnimBody :=
  if 0.1 < dt ∨ dt ≤ 0 then bs else animLoop dt bs.length 0 bs

/-! ## Correspondence lemmas for the counted loops of the scene composer -/

/-- Proof-side normal form of a loop that visits every body, advances a
counter each iteration, and emits at most one item per body. -/
def countedAux {α : Type} (f : ℕ → Body → Option α) : List Body → ℕ → List α
  | [], _ => []
  | b :: rest, n => (f n b).toList ++ countedAux f rest (n + 1)

lemma mem_countedAux {α : Type} (f : ℕ → Body → Option α) (l : List Body) :
    ∀ (k : ℕ) (a : α),
      a ∈ countedAux f l k ↔ ∃ i b, l[i]? = some b ∧ f (k + i) b = some a := by
  induction l with
  | nil => intro k a; simp [countedAux]
  | cons hd tl ih =>
      intro k a
      rw [countedAux, List.mem_append]
      constructor
      · rintro (h1 | h2)
        · exact ⟨0, hd, by simp, by simpa using h1⟩
        · obtain ⟨i, b, hi, hf⟩ := (ih (k + 1) a).mp h2
          refine ⟨i + 1, b, by simpa using hi, ?_⟩
          rw [show k + (i + 1) = k + 1 + i by omega]
          exact hf
      · rintro ⟨i, b, hi, hf⟩
        cases i with
        | zero =>
            left
            have hb : hd = b := by simpa using hi
            subst hb
            simpa using hf
        | succ j =>
            right
            refine (ih (k + 1) a).mpr ⟨j, b, by simpa using hi, ?_⟩
            rw [show k + 1 + j = k + (j + 1) by omega]
            exact hf

lemma svgLabelsAux_eq_counted (l : List Body) : ∀ k,
    svgLabelsAux l k = countedAux
      (fun n b =>
        if b.type == "asteroid_ring" || !b.show_label then none
        else if labeledType b.type then some (n, b) else none) l k := by
  induction l with
  | nil => intro k; rfl
  | cons hd tl ih =>
      intro k
      simp only [svgLabelsAux, countedAux]
      by_cases h1 : (hd.type == "asteroid_ring" || !hd.show_label) = true
      · rw [if_pos h1, if_pos h1]
        simp [ih (k + 1)]
      · rw [if_neg h1, if_neg h1]
        by_cases h2 : labeledType hd.type = true
        · rw [if_pos h2, if_pos h2]
          simp [ih (k + 1)]
        · rw [if_neg h2, if_neg h2]
          simp [ih (k + 1)]

lemma svgBodyTagsAux_eq_counted (l : List Body) : ∀ k,
    svgBodyTagsAux l k = countedAux
      (fun n b => if taggedType b.type then some (n, b) else none) l k := by
  induction l with
  | nil => intro k; rfl
  | cons hd tl ih =>
      intro k
      simp only [svgBodyTagsAux, countedAux]
      by_cases h1 : taggedType hd.type = true
      · rw [if_pos h1, if_pos h1]
        simp [ih (k + 1)]
      · rw [if_neg h1, if_neg h1]
        simp [ih (k + 1)]

lemma bodiesDataAux_eq_counted (l : List Body) : ∀ k,
    bodiesDataAux l k = countedAux
      (fun n b => if b.type == "asteroid_ring" then none else some (toAnimBody n b)) l k := by
  induction l with
  | nil => intro k; rfl
  | cons hd tl ih =>
      intro k
      simp only [bodiesDataAux, countedAux]
      by_cases h1 : (hd.type == "asteroid_ring") = true
      · rw [if_pos h1, if_pos h1]
        simp [ih (k + 1)]
      · rw [if_neg h1, if_neg h1]
        simp [ih (k + 1)]

/-- What the labels loop emits: a `label-n` text element exists precisely for
the body at index `n` of the full list, when that body has labels enabled and
its kind has a label branch. -/
lemma mem_svgLabels (bodies : List Body) (n : ℕ) (b : Body) :
    (n, b) ∈ svgLabels bodies ↔
      bodies[n]? = some b ∧ b.show_label = true ∧ labeledType b.type = true := by
  rw [svgLabels, svgLabelsAux_eq_counted, mem_countedAux]
  constructor
  · rintro ⟨i, b', hi, hf⟩
    cases hskip : (b'.type == "asteroid_ring" || !b'.show_label) with
    | true => rw [if_pos hskip] at hf; simp at hf
    | false =>
        rw [if_neg (by simp [hskip])] at hf
        cases hlab : labeledType b'.type with
        | false => rw [if_neg (by simp [hlab])] at hf; simp at hf
        | true =>
            rw [if_pos hlab] at hf
            have hpair := Option.some.inj hf
            have hn : 0 + i = n := congrArg Prod.fst hpair
            have hb : b' = b := congrArg Prod.snd hpair
            subst hb
            have hn2 : i = n := by omega
            subst hn2
            refine ⟨hi, ?_, hlab⟩
            simpa using (Bool.or_eq_false_iff.mp hskip).2
  · rintro ⟨hn, hsl, hlab⟩
    refine ⟨n, b, hn, ?_⟩
    have hring : b.type ≠ "asteroid_ring" := by
      intro h
      rw [h] at hlab
      simp [labeledType] at hlab
    rw [if_neg (by simp [hring, hsl]), if_pos hlab]
    simp

/-- What the celestial-bodies loop tags: a `body-n` element exists precisely
for the body at index `n` of the full list, when its kind emits a tagged
element (all kinds except asteroid rings). -/
lemma mem_svgBodyTags (bodies : List Body) (n : ℕ) (b : Body) :
    (n, b) ∈ svgBodyTags bodies ↔
      bodies[n]? = some b ∧ taggedType b.type = true := by
  rw [svgBodyTags, svgBodyTagsAux_eq_counted, mem_countedAux]
  constructor
  · rintro ⟨i, b', hi, hf⟩
    cases htag : taggedType b'.type with
    | false => rw [if_neg (by simp [htag])] at hf; simp at hf
    | true =>
        rw [if_pos htag] at hf
        have hpair := Option.some.inj hf
        have hn : 0 + i = n := congrArg Prod.fst hpair
        have hb : b' = b := congrArg Prod.snd hpair
        subst hb
        have hn2 : i = n := by omega
        subst hn2
        exact ⟨hi, htag⟩
  · rintro ⟨hn, htag⟩
    refine ⟨n, b, hn, ?_⟩
    rw [if_pos htag]
    simp

/-- What the metadata loop keeps: an entry is some non-ring body of the full
list converted with its unfiltered enumeration index as `id`. -/
lemma mem_bodiesData (bodies : List Body) (m : AnimBody) :
    m ∈ bodiesData bodies ↔
      ∃ i b, bodies[i]? = some b ∧ b.type ≠ "asteroid_ring" ∧ m = toAnimBody i b := by
  rw [bodiesData, bodiesDataAux_eq_counted, mem_countedAux]
  constructor
  · rintro ⟨i, b, hi, hf⟩
    cases hring : (b.type == "asteroid_ring") with
    | true => rw [if_pos hring] at hf; simp at hf
    | false =>
        rw [if_neg (by simp [hring])] at hf
        refine ⟨i, b, hi, by simpa using hring, ?_⟩
        have := Option.some.inj hf
        simpa using this.symm
  · rintro ⟨i, b, hi, hring, hm⟩
    refine ⟨i, b, hi, ?_⟩
    rw [if_neg (by simp [hring])]
    simp [hm]

/-- C2 counterexample input: a moon with labels enabled. -/
noncomputable def c2Moon : Body :=
  mkBody "Callisto" "moon" "Jupiter" 50 5 none true "circle" 0 0 0

/-- C2, counterexample: the claim says every star, planet, moon or station
with label display enabled receives a text label, but the labels loop has no
branch for moons — a moon with `show_label` enabled yields no label element at
all. -/
theorem moon_label_missing_counterexample :
    c2Moon.type = "moon" ∧ c2Moon.type ≠ "asteroid_ring" ∧ c2Moon.show_label = true ∧
      svgLabels [c2Moon] = [] := by
  refine ⟨rfl, by simp [c2Moon, mkBody], rfl, ?_⟩
  simp [svgLabels, svgLabelsAux, c2Moon, mkBody, labeledType]

/-- C2 (amended): in the static scene's label group, a label element is
emitted exactly for the bodies that are stars, planets or stations with label
display enabled; asteroid rings, label-disabled bodies, and moons (whose kind
has no label branch) are omitted. -/
theorem label_emission_characterization :
    ∀ (bodies : List Body) (n : ℕ) (b : Body),
      (n, b) ∈ svgLabels bodies ↔
        bodies[n]? = some b ∧ b.show_label = true ∧
          (b.type = "star" ∨ b.type = "planet" ∨ b.type = "station") := by
  intro bodies n b
  rw [mem_svgLabels]
  have hlab : labeledType b.type = true ↔
      (b.type = "star" ∨ b.type = "planet" ∨ b.type = "station") := by
    simp [labeledType, or_assoc]
  tauto

/-- C2 witness input: a star with labels enabled. -/
noncomputable def c2Star : Body :=
  mkBody "Sol" "star" "" 0 30 none true "circle" 0 0 0

/-- C2 witness: the amended characterization evaluated on a one-star scene. -/
theorem label_emission_characterization_witness :
    (0, c2Star) ∈ svgLabels [c2Star] :=
  (label_emission_characterization [c2Star] 0 c2Star).mpr
    ⟨by simp, rfl, Or.inl rfl⟩

/-- C10: every emitted label `label-n` belongs to the body at index `n` of the
full body list — the same body whose visual element is tagged `body-n` — so
the animation's lookup of `label-{id}` (with `id` the metadata id) can never
resolve to a different body's label. -/
theorem label_ids_match_body_ids :
    ∀ (bodies : List Body) (n : ℕ) (b : Body),
      (n, b) ∈ svgLabels bodies →
        bodies[n]? = some b ∧ (n, b) ∈ svgBodyTags bodies := by
  intro bodies n b h
  obtain ⟨hn, hsl, hlab⟩ := (mem_svgLabels bodies n b).mp h
  refine ⟨hn, (mem_svgBodyTags bodies n b).mpr ⟨hn, ?_⟩⟩
  simp only [labeledType, Bool.or_eq_true, beq_iff_eq] at hlab
  simp only [taggedType, Bool.or_eq_true, beq_iff_eq]
  tauto

/-- C10 witness inputs: an asteroid ring followed by a planet, so the planet's
label id is 1, not 0. -/
noncomputable def c10Ring : Body :=
  mkBody "Belt" "asteroid_ring" "Sol" 300 4 none true "circle" 0 0 20

/-- C10 witness input: the planet at index 1. -/
noncomputable def c10Planet : Body :=
  mkBody "Ares" "planet" "Sol" 500 12 (some 0) true "circle" 0 0 0

/-- C10 witness: in a ring-then-planet scene the planet's label is `label-1`,
matching its position and its `body-1` tag. -/
theorem label_ids_match_body_ids_witness :
    [c10Ring, c10Planet][1]? = some c10Planet ∧
      (1, c10Planet) ∈ svgBodyTags [c10Ring, c10Planet] :=
  label_ids_match_body_ids _ 1 c10Planet
    (by simp [svgLabels, svgLabelsAux, c10Ring, c10Planet, mkBody, labeledType])

/-- C4: ids are assigned by position in the full body list (asteroid rings
included).  Every metadata entry's `id` is its body's unfiltered index and no
ring is kept; conversely every non-ring body at index `i` contributes the
metadata entry with `id = i`; and the static scene's tagged element `body-n`
is exactly the body at index `n` (for the kinds that emit a tagged element). -/
theorem anim_ids_match_unfiltered_index :
    ∀ bodies : List Body,
      (∀ m ∈ bodiesData bodies,
          ∃ b, bodies[m.id]? = some b ∧ b.type ≠ "asteroid_ring" ∧ m = toAnimBody m.id b) ∧
      (∀ (i : ℕ) (b : Body), bodies[i]? = some b → b.type ≠ "asteroid_ring" →
          toAnimBody i b ∈ bodiesData bodies) ∧
      (∀ (n : ℕ) (b : Body), (n, b) ∈ svgBodyTags bodies ↔
          bodies[n]? = some b ∧ taggedType b.type = true) := by
  intro bodies
  refine ⟨?_, ?_, fun n b => mem_svgBodyTags bodies n b⟩
  · intro m hm
    obtain ⟨i, b, hi, hring, hm⟩ := (mem_bodiesData bodies m).mp hm
    subst hm
    exact ⟨b, hi, hring, rfl⟩
  · intro i b hi hring
    exact (mem_bodiesData bodies (toAnimBody i b)).mpr ⟨i, b, hi, hring, rfl⟩

/-- C4 witness inputs: star, ring, planet — the planet keeps id 2 in the
metadata even though the ring is filtered out. -/
noncomputable def c4Star : Body :=
  mkBody "Sol" "star" "" 0 30 none true "circle" 0 0 0

/-- C4 witness input: the filtered-out ring at index 1. -/
noncomputable def c4Ring : Body :=
  mkBody "Belt" "asteroid_ring" "Sol" 300 4 none true "circle" 0 0 20

/-- C4 witness input: the planet at index 2. -/
noncomputable def c4Planet : Body :=
  mkBody "Ares" "planet" "Sol" 500 12 (some 0) true "circle" 0 0 0

/-- C4 witness: the planet's metadata entry carries id 2, its position in the
unfiltered list. -/
theorem anim_ids_match_unfiltered_index_witness :
    toAnimBody 2 c4Planet ∈ bodiesData [c4Star, c4Ring, c4Planet] :=
  (anim_ids_match_unfiltered_index [c4Star, c4Ring, c4Planet]).2.1 2 c4Planet
    (by simp) (by simp [c4Planet, mkBody])

/-- C9: the ellipse semi-minor axis is `orbit_distance * sqrt(1 - e^2)` with
the eccentricity capped at 0.99; for distance 100 and eccentricity 0.6 it is
exactly 80, and an out-of-range eccentricity 1.2 is clamped to 0.99, giving a
semi-minor axis within 0.01 of 14.1. -/
theorem orbit_ellipse_semi_minor_values :
    (∀ d ecc : ℝ, orbitEllipseSemiMinor d ecc = d * Real.sqrt (1 - min ecc 0.99 ^ 2)) ∧
    orbitEllipseSemiMinor 100 0.6 = 80 ∧
    |orbitEllipseSemiMinor 100 1.2 - 14.1| < 0.01 ∧
    orbitEllipseSemiMinor 100 1.2 = orbitEllipseSemiMinor 100 0.99 := by
  refine ⟨?_, ?_, ?_, ?_⟩
  · intro d ecc
    rw [orbitEllipseSemiMinor, sq]
  · rw [orbitEllipseSemiMinor]
    rw [show min (0.6 : ℝ) 0.99 = 0.6 by norm_num]
    rw [show (1 : ℝ) - 0.6 * 0.6 = 0.8 ^ 2 by norm_num]
    rw [Real.sqrt_sq (by norm_num : (0 : ℝ) ≤ 0.8)]
    norm_num
  · rw [orbitEllipseSemiMinor]
    rw [show min (1.2 : ℝ) 0.99 = 0.99 by norm_num]
    rw [show (1 : ℝ) - 0.99 * 0.99 = 0.0199 by norm_num]
    have hlow : (0.141 : ℝ) < Real.sqrt 0.0199 :=
      (Real.lt_sqrt (by norm_num)).mpr (by norm_num)
    have hhigh : Real.sqrt 0.0199 < 0.1411 :=
      (Real.sqrt_lt' (by norm_num)).mpr (by norm_num)
    rw [abs_lt]
    constructor <;> nlinarith [hlow, hhigh]
  · rw [orbitEllipseSemiMinor, orbitEllipseSemiMinor]
    rw [show min (1.2 : ℝ) 0.99 = 0.99 by norm_num]
    rw [show min (0.99 : ℝ) 0.99 = 0.99 by norm_num]

/-! ## Hit-testing: argmin characterization of `findClosestBody` -/

/-- The per-body hover threshold test `dist < Math.max(body.radius * 2, 12)`. -/
noncomputable def withinHover (x y : ℝ) (b : AnimBody) : Prop :=
  hoverDist x y b < max (b.radius * 2) 12

/-- Invariant of the `findClosestBody` accumulation: either no scanned body
took over (and every within-threshold body is at least as far as the held
minimum), or the result is the first scanned body realizing the strict
minimum distance among within-threshold bodies. -/
lemma findClosestAux_spec (x y : ℝ) :
    ∀ (l : List AnimBody) (acc : Option (AnimBody × ℝ)),
      (findClosestAux x y l acc = acc ∧
        (acc = none → ∀ c ∈ l, ¬ withinHover x y c) ∧
        (∀ p, acc = some p → ∀ c ∈ l, withinHover x y c → p.2 ≤ hoverDist x y c)) ∨
      (∃ (i : ℕ) (b : AnimBody), l[i]? = some b ∧ withinHover x y b ∧
        findClosestAux x y l acc = some (b, hoverDist x y b) ∧
        (∀ p, acc = some p → hoverDist x y b < p.2) ∧
        (∀ (j : ℕ) (c : AnimBody), l[j]? = some c → withinHover x y c →
          hoverDist x y b ≤ hoverDist x y c) ∧
        (∀ (j : ℕ) (c : AnimBody), j < i → l[j]? = some c → withinHover x y c →
          hoverDist x y b < hoverDist x y c)) := by
  intro l
  induction l with
  | nil =>
      intro acc
      left
      refine ⟨rfl, by simp, by simp⟩
  | cons hd tl ih =>
      intro acc
      match acc with
      | none =>
          rw [show findClosestAux x y (hd :: tl) none =
              findClosestAux x y tl
                (if hoverDist x y hd < max (hd.radius * 2) 12
                  then some (hd, hoverDist x y hd) else none) from rfl]
          by_cases hw : hoverDist x y hd < max (hd.radius * 2) 12
          · rw [if_pos hw]
            rcases ih (some (hd, hoverDist x y hd)) with ⟨heq, _, hmin⟩ | hright
            · right
              refine ⟨0, hd, by simp, hw, by rw [heq], by simp, ?_, ?_⟩
              · intro j c hj hc
                match j with
                | 0 =>
                    have : hd = c := by simpa using hj
                    subst this
                    exact le_refl _
                | j + 1 =>
                    have hj' : tl[j]? = some c := by simpa using hj
                    exact hmin _ rfl c (List.getElem?_mem hj') hc
              · intro j c hj
                omega
            · obtain ⟨i, b, hi, hwb, heq, hacc, hall, hearly⟩ := hright
              right
              have hbhd : hoverDist x y b < hoverDist x y hd := hacc _ rfl
              refine ⟨i + 1, b, by simpa using hi, hwb, heq, by simp, ?_, ?_⟩
              · intro j c hj hc
                match j with
                | 0 =>
                    have : hd = c := by simpa using hj
                    subst this
                    exact le_of_lt hbhd
                | j + 1 =>
                    exact hall j c (by simpa using hj) hc
              · intro j c hji hj hc
                match j with
                | 0 =>
                    have : hd = c := by simpa using hj
                    subst this
                    exact hbhd
                | j + 1 =>
                    exact hearly j c (by omega) (by simpa using hj) hc
          · rw [if_neg hw]
            rcases ih none with ⟨heq, hnone, hmin⟩ | hright
            · left
              refine ⟨heq, ?_, by simp⟩
              intro _ c hc
              rcases List.mem_cons.mp hc with h | h
              · subst h
                exact hw
              · exact hnone rfl c h
            · obtain ⟨i, b, hi, hwb, heq, _, hall, hearly⟩ := hright
              right
              refine ⟨i + 1, b, by simpa using hi, hwb, heq, by simp, ?_, ?_⟩
              · intro j c hj hc
                match j with
                | 0 =>
                    have : hd = c := by simpa using hj
                    subst this
                    exact absurd hc hw
                | j + 1 =>
                    exact hall j c (by simpa using hj) hc
              · intro j c hji hj hc
                match j with
                | 0 =>
                    have : hd = c := by simpa using hj
                    subst this
                    exact absurd hc hw
                | j + 1 =>
                    exact hearly j c (by omega) (by simpa using hj) hc
      | some p =>
          rw [show findClosestAux x y (hd :: tl) (some p) =
              findClosestAux x y tl
                (if hoverDist x y hd < max (hd.radius * 2) 12 ∧ hoverDist x y hd < p.2
                  then some (hd, hoverDist x y hd) else some p) from rfl]
          by_cases hw : hoverDist x y hd < max (hd.radius * 2) 12 ∧ hoverDist x y hd < p.2
          · rw [if_pos hw]
            rcases ih (some (hd, hoverDist x y hd)) with ⟨heq, _, hmin⟩ | hright
            · right
              refine ⟨0, hd, by simp, hw.1, by rw [heq], ?_, ?_, ?_⟩
              · intro q hq
                cases Option.some.inj hq
                exact hw.2
              · intro j c hj hc
                match j with
                | 0 =>
                    have : hd = c := by simpa using hj
                    subst this
                    exact le_refl _
                | j + 1 =>
                    have hj' : tl[j]? = some c := by simpa using hj
                    exact hmin _ rfl c (List.getElem?_mem hj') hc
              · intro j c hj
                omega
            · obtain ⟨i, b, hi, hwb, heq, hacc, hall, hearly⟩ := hright
              right
              have hbhd : hoverDist x y b < hoverDist x y hd := hacc _ rfl
              refine ⟨i + 1, b, by simpa using hi, hwb, heq, ?_, ?_, ?_⟩
              · intro q hq
                cases Option.some.inj hq
                exact lt_trans hbhd hw.2
              · intro j c hj hc
                match j with
                | 0 =>
                    have : hd = c := by simpa using hj
                    subst this
                    exact le_of_lt hbhd
                | j + 1 =>
                    exact hall j c (by simpa using hj) hc
              · intro j c hji hj hc
                match j with
                | 0 =>
                    have : hd = c := by simpa using hj
                    subst this
                    exact hbhd
                | j + 1 =>
                    exact hearly j c (by omega) (by simpa using hj) hc
          · rw [if_neg hw]
            rcases ih (some p) with ⟨heq, _, hmin⟩ | hright
            · left
              refine ⟨heq, by simp, ?_⟩
              intro q hq c hc hcw
              cases Option.some.inj hq
              rcases List.mem_cons.mp hc with h | h
              · subst h
                by_cases hthr : hoverDist x y c < p.2
                · exact absurd ⟨hcw, hthr⟩ hw
                · exact le_of_not_lt hthr
              · exact hmin p rfl c h hcw
            · obtain ⟨i, b, hi, hwb, heq, hacc, hall, hearly⟩ := hright
              right
              have hbp : hoverDist x y b < p.2 := hacc _ rfl
              refine ⟨i + 1, b, by simpa using hi, hwb, heq, ?_, ?_, ?_⟩
              · intro q hq
                cases Option.some.inj hq
                exact hbp
              · intro j c hj hc
                match j with
                | 0 =>
                    have : hd = c := by simpa using hj
                    subst this
                    by_cases hthr : hoverDist x y hd < p.2
                    · exact absurd ⟨hc, hthr⟩ hw
                    · exact le_of_lt (lt_of_lt_of_le hbp (le_of_not_lt hthr))
                | j + 1 =>
                    exact hall j c (by simpa using hj) hc
              · intro j c hji hj hc
                match j with
                | 0 =>
                    have : hd = c := by simpa using hj
                    subst this
                    by_cases hthr : hoverDist x y hd < p.2
                    · exact absurd ⟨hc, hthr⟩ hw
                    · exact lt_of_lt_of_le hbp (le_of_not_lt hthr)
                | j + 1 =>
                    exact hearly j c (by omega) (by simpa using hj) hc

/-- C5: `findClosestBody` returns no hit when no body passes its own
threshold `max(2 * radius, 12)`, and otherwise returns a body of strictly
smallest distance among the bodies passing their thresholds, with ties broken
in favor of the earlier body in iteration order (every strictly earlier
candidate is strictly farther). -/
theorem find_closest_body_spec :
    ∀ (x y : ℝ) (bs : List AnimBody),
      ((∀ c ∈ bs, ¬ withinHover x y c) → findClosestBody x y bs = none) ∧
      (∀ b, findClosestBody x y bs = some b →
        ∃ i : ℕ, bs[i]? = some b ∧ withinHover x y b ∧
          (∀ (j : ℕ) (c : AnimBody), bs[j]? = some c → withinHover x y c →
            hoverDist x y b ≤ hoverDist x y c) ∧
          (∀ (j : ℕ) (c : AnimBody), j < i → bs[j]? = some c → withinHover x y c →
            hoverDist x y b < hoverDist x y c)) := by
  intro x y bs
  constructor
  · intro hall
    rcases findClosestAux_spec x y bs none with ⟨heq, _, _⟩ | hright
    · rw [findClosestBody, heq]
      rfl
    · obtain ⟨i, b, hi, hwb, _, _, _, _⟩ := hright
      exact absurd hwb (hall b (List.getElem?_mem hi))
  · intro b hb
    rcases findClosestAux_spec x y bs none with ⟨heq, _, _⟩ | hright
    · rw [findClosestBody, heq] at hb
      simp at hb
    · obtain ⟨i, b', hi, hwb, heq, _, hall, hearly⟩ := hright
      rw [findClosestBody, heq] at hb
      have hbb : b' = b := by simpa using hb
      subst hbb
      exact ⟨i, hi, hwb, fun j c hj hc => hall j c hj hc,
        fun j c hji hj hc => hearly j c hji hj hc⟩

/-- C5 witness input: a body at scene distance 5 from the pointer origin. -/
noncomputable def c5A : AnimBody where
  name := "A"
  type := "planet"
  x := 3
  y := 4
  radius := 10
  orbit_radius := 500
  angle := 0
  parent_x := 0
  parent_y := 0
  id := 0
  orbit_shape := "circle"
  orbit_eccentricity := 0
  orbit_rotation := 0

/-- C5 witness input: a second body at exactly the same distance 5. -/
noncomputable def c5B : AnimBody where
  name := "B"
  type := "planet"
  x := 4
  y := 3
  radius := 10
  orbit_radius := 600
  angle := 0
  parent_x := 0
  parent_y := 0
  id := 1
  orbit_shape := "circle"
  orbit_eccentricity := 0
  orbit_rotation := 0

/-- C5 witness input: a body far outside its hover threshold. -/
noncomputable def c5Far : AnimBody where
  name := "F"
  type := "planet"
  x := 3000
  y := 4000
  radius := 1
  orbit_radius := 700
  angle := 0
  parent_x := 0
  parent_y := 0
  id := 0
  orbit_shape := "circle"
  orbit_eccentricity := 0
  orbit_rotation := 0

/-- C5 witness: a single out-of-threshold body yields no hit, and of two
bodies at exactly equal distance 5 the first-iterated one is returned with
the argmin properties. -/
theorem find_closest_body_spec_witness :
    findClosestBody 0 0 [c5Far] = none ∧
    (∃ i : ℕ, [c5A, c5B][i]? = some c5A ∧ withinHover 0 0 c5A ∧
      (∀ (j : ℕ) (c : AnimBody), [c5A, c5B][j]? = some c → withinHover 0 0 c →
        hoverDist 0 0 c5A ≤ hoverDist 0 0 c) ∧
      (∀ (j : ℕ) (c : AnimBody), j < i → [c5A, c5B][j]? = some c → withinHover 0 0 c →
        hoverDist 0 0 c5A < hoverDist 0 0 c)) := by
  have hA : hoverDist 0 0 c5A = 5 := by
    rw [hoverDist, show c5A.x = (3 : ℝ) from rfl, show c5A.y = (4 : ℝ) from rfl]
    rw [show ((0 : ℝ) - 3) ^ 2 + ((0 : ℝ) - 4) ^ 2 = 5 ^ 2 by norm_num]
    exact Real.sqrt_sq (by norm_num)
  have hB : hoverDist 0 0 c5B = 5 := by
    rw [hoverDist, show c5B.x = (4 : ℝ) from rfl, show c5B.y = (3 : ℝ) from rfl]
    rw [show ((0 : ℝ) - 4) ^ 2 + ((0 : ℝ) - 3) ^ 2 = 5 ^ 2 by norm_num]
    exact Real.sqrt_sq (by norm_num)
  have hFar : hoverDist 0 0 c5Far = 5000 := by
    rw [hoverDist, show c5Far.x = (3000 : ℝ) from rfl, show c5Far.y = (4000 : ℝ) from rfl]
    rw [show ((0 : ℝ) - 3000) ^ 2 + ((0 : ℝ) - 4000) ^ 2 = 5000 ^ 2 by norm_num]
    exact Real.sqrt_sq (by norm_num)
  have hAr : c5A.radius = 10 := rfl
  have hBr : c5B.radius = 10 := rfl
  constructor
  · apply (find_closest_body_spec 0 0 [c5Far]).1
    intro c hc
    have hcf : c = c5Far := by simpa using hc
    subst hcf
    rw [withinHover, hFar, show c5Far.radius = (1 : ℝ) from rfl]
    norm_num
  · apply (find_closest_body_spec 0 0 [c5A, c5B]).2 c5A
    rw [findClosestBody]
    simp only [findClosestAux, hA, hB, hAr, hBr]
    norm_num

/-! ## Animation tick: angle advance and the dt guard -/

/-- The angle a body holds after its own step of one accepted tick, as a
function of its pre-tick angle, kind, and orbit radius. -/
noncomputable def tickAngleOf (dt a : ℝ) (t : String) (r : ℝ) : ℝ :=
  if r = 0 then a
  else a + (if t = "moon" then 0.2 / Real.sqrt (max r 1) * 3
            else 0.2 / Real.sqrt (max r 1)) * dt

/-- The fields of a body read by its own angle update. -/
def angleStat (o : AnimBody) : ℝ × String × ℝ :=
  (o.angle, o.type, o.orbit_radius)

lemma reparent_angleStat (p o : AnimBody) : angleStat (reparent p o) = angleStat o := by
  rw [reparent]
  split <;> rfl

lemma tickStep_angleStat_ne (dt : ℝ) (bs : List AnimBody) (i j : ℕ) (hne : j ≠ i) :
    ((tickStep dt bs i)[j]?).map angleStat = (bs[j]?).map angleStat := by
  rw [tickStep]
  cases hb : bs[i]? with
  | none => rfl
  | some b =>
      rw [tickBody]
      by_cases h0 : b.orbit_radius = 0
      · rw [if_pos h0]
      · rw [if_neg h0]
        have hset : (bs.set i (updateBody dt b))[j]? = bs[j]? :=
          List.getElem?_set_ne (fun h => hne h.symm)
        by_cases hps : b.type = "planet" ∨ b.type = "star"
        · rw [if_pos hps, List.getElem?_map, hset]
          cases bs[j]? with
          | none => rfl
          | some o => simp [reparent_angleStat]
        · rw [if_neg hps, hset]

lemma tickStep_angleStat_self (dt : ℝ) (bs : List AnimBody) (i : ℕ) (b : AnimBody)
    (hb : bs[i]? = some b) :
    ((tickStep dt bs i)[i]?).map angleStat =
      some (tickAngleOf dt b.angle b.type b.orbit_radius, b.type, b.orbit_radius) := by
  have hi : i < bs.length := (List.getElem?_eq_some_iff.mp hb).1
  rw [tickStep, hb, tickBody]
  by_cases h0 : b.orbit_radius = 0
  · rw [if_pos h0, hb]
    simp [angleStat, tickAngleOf, h0]
  · rw [if_neg h0]
    have hset : (bs.set i (updateBody dt b))[i]? = some (updateBody dt b) :=
      List.getElem?_set_self (by simpa using hi)
    have hupd : angleStat (updateBody dt b) =
        (tickAngleOf dt b.angle b.type b.orbit_radius, b.type, b.orbit_radius) := by
      rw [show angleStat (updateBody dt b) =
          (b.angle + tickSpeed b * dt, b.type, b.orbit_radius) from rfl]
      rw [tickAngleOf, if_neg h0, tickSpeed]
    by_cases hps : b.type = "planet" ∨ b.type = "star"
    · rw [if_pos hps, List.getElem?_map, hset]
      simp [reparent_angleStat, hupd]
    · rw [if_neg hps, hset]
      simp [hupd]

lemma animLoop_angleStat_below (dt : ℝ) :
    ∀ (fuel i : ℕ) (bs : List AnimBody) (j : ℕ), j < i →
      ((animLoop dt fuel i bs)[j]?).map angleStat = (bs[j]?).map angleStat := by
  intro fuel
  induction fuel with
  | zero => intro i bs j hj; rfl
  | succ n ih =>
      intro i bs j hj
      rw [animLoop]
      rw [ih (i + 1) (tickStep dt bs i) j (by omega)]
      exact tickStep_angleStat_ne dt bs i j (by omega)

lemma animLoop_angle (dt : ℝ) :
    ∀ (fuel i : ℕ) (bs : List AnimBody) (j : ℕ) (a : ℝ) (t : String) (r : ℝ),
      (bs[j]?).map angleStat = some (a, t, r) → i ≤ j → j < i + fuel →
      ((animLoop dt fuel i bs)[j]?).map angleStat =
        some (tickAngleOf dt a t r, t, r) := by
  intro fuel
  induction fuel with
  | zero => intro i bs j a t r _ _ hlt; omega
  | succ n ih =>
      intro i bs j a t r hstat hle hlt
      rw [animLoop]
      rcases Nat.eq_or_lt_of_le hle with heq | hlt2
      · subst heq
        obtain ⟨b, hb, hsb⟩ : ∃ b, bs[i]? = some b ∧ angleStat b = (a, t, r) := by
          cases hbs : bs[i]? with
          | none => rw [hbs] at hstat; simp at hstat
          | some b =>
              rw [hbs] at hstat
              exact ⟨b, rfl, by simpa using hstat⟩
        have hstep := tickStep_angleStat_self dt bs i b hb
        have hb3 : b.angle = a ∧ b.type = t ∧ b.orbit_radius = r := by
          rw [angleStat] at hsb
          exact ⟨congrArg (fun q => q.1) hsb, congrArg (fun q => q.2.1) hsb,
            congrArg (fun q => q.2.2) hsb⟩
        rw [animLoop_angleStat_below dt n (i + 1) (tickStep dt bs i) i (by omega)]
        rw [hstep, hb3.1, hb3.2.1, hb3.2.2]
      · have hpre : ((tickStep dt bs i)[j]?).map angleStat = some (a, t, r) := by
          rw [tickStep_angleStat_ne dt bs i j (by omega)]
          exact hstat
        exact ih (i + 1) (tickStep dt bs i) j a t r hpre (by omega) (by omega)

/-- C6: in an accepted tick with `dt = 0.05`, every planet with orbit radius
at least 1 advances its angle by exactly `(0.2 / sqrt(orbitDistance)) * 0.05`;
and any tick whose `dt` is nonpositive or exceeds the 0.1-second guard leaves
the whole body array unchanged. -/
theorem tick_angle_update_and_guard :
    (∀ (bs : List AnimBody) (j : ℕ) (b : AnimBody),
        bs[j]? = some b → b.type = "planet" → 1 ≤ b.orbit_radius →
        ((animate 0.05 bs)[j]?).map AnimBody.angle =
          some (b.angle + 0.2 / Real.sqrt b.orbit_radius * 0.05)) ∧
    (∀ (dt : ℝ) (bs : List AnimBody), dt ≤ 0 ∨ 0.1 < dt → animate dt bs = bs) := by
  constructor
  · intro bs j b hb htype hr
    have hj : j < bs.length := (List.getElem?_eq_some_iff.mp hb).1
    have hguard : ¬((0.1 : ℝ) < 0.05 ∨ (0.05 : ℝ) ≤ 0) := by norm_num
    rw [animate, if_neg hguard]
    have hstat : (bs[j]?).map angleStat = some (b.angle, b.type, b.orbit_radius) := by
      rw [hb]; rfl
    have := animLoop_angle 0.05 bs.length 0 bs j b.angle b.type b.orbit_radius hstat
      (by omega) (by omega)
    have hval : tickAngleOf 0.05 b.angle b.type b.orbit_radius =
        b.angle + 0.2 / Real.sqrt b.orbit_radius * 0.05 := by
      rw [tickAngleOf, if_neg (by intro h; rw [h] at hr; norm_num at hr),
        if_neg (by rw [htype]; intro h; exact absurd h (by decide)),
        max_eq_left hr]
    cases hres : (animLoop 0.05 bs.length 0 bs)[j]? with
    | none => rw [hres] at this; simp at this
    | some o =>
        rw [hres] at this
        have ho : angleStat o = (tickAngleOf 0.05 b.angle b.type b.orbit_radius,
            b.type, b.orbit_radius) := by simpa using this
        have hoa : o.angle = tickAngleOf 0.05 b.angle b.type b.orbit_radius :=
          congrArg (fun q => q.1) ho
        rw [Option.map_some', hoa, hval]
  · intro dt bs hdt
    rw [animate, if_pos (by tauto)]

/-- C6 witness input: a planet with orbit radius 400. -/
noncomputable def c6Planet : AnimBody where
  name := "P"
  type := "planet"
  x := 0
  y := 400
  radius := 5
  orbit_radius := 400
  angle := 0
  parent_x := 0
  parent_y := 0
  id := 0
  orbit_shape := "circle"
  orbit_eccentricity := 0
  orbit_rotation := 0

/-- C6 witness: the angle formula at `dt = 0.05` on a concrete planet, and the
no-op at `dt = 0.2`. -/
theorem tick_angle_update_and_guard_witness :
    ((animate 0.05 [c6Planet])[0]?).map AnimBody.angle =
      some (c6Planet.angle + 0.2 / Real.sqrt c6Planet.orbit_radius * 0.05) ∧
    animate 0.2 [c6Planet] = [c6Planet] :=
  ⟨tick_angle_update_and_guard.1 [c6Planet] 0 c6Planet (by simp) rfl
      (by rw [show c6Planet.orbit_radius = (400 : ℝ) from rfl]; norm_num),
   tick_angle_update_and_guard.2 0.2 [c6Planet] (Or.inr (by norm_num))⟩

/-! ## Parent propagation (C3) -/

/-- Circular-orbit case of `updateBody`: the re-derived position. -/
lemma updateBody_circle (dt : ℝ) (b : AnimBody)
    (hshape : ¬(b.orbit_shape = "ellipse" ∧ b.orbit_eccentricity > 0)) :
    (updateBody dt b).x = b.parent_x + b.orbit_radius * Real.cos (b.angle + tickSpeed b * dt) ∧
    (updateBody dt b).y = b.parent_y + b.orbit_radius * Real.sin (b.angle + tickSpeed b * dt) := by
  constructor <;> (simp only [updateBody]; rw [if_neg hshape])

/-- C3 (amended): during a tick, after the body at index `i` — a planet or
star with nonzero orbit radius — is moved, every scanned body of an eligible
child kind whose recorded parent position lies within distance 1 of the
mover's *post-update* (new) position has its recorded parent position re-set
to that new position.  (The emitted script writes `body.x = newX` before the
re-scan, so the proximity test compares against the new position, not the
pre-update one as the claim states.) -/
theorem reparent_on_new_position :
    ∀ (dt : ℝ) (bs : List AnimBody) (i : ℕ) (b : AnimBody),
      bs[i]? = some b → b.orbit_radius ≠ 0 → (b.type = "planet" ∨ b.type = "star") →
      ∀ (j : ℕ) (o : AnimBody), (bs.set i (updateBody dt b))[j]? = some o →
        isChildKind b.type o.type = true →
        Real.sqrt ((o.parent_x - (updateBody dt b).x) ^ 2 +
          (o.parent_y - (updateBody dt b).y) ^ 2) < 1 →
        ((tickStep dt bs i)[j]?).map (fun q => (q.parent_x, q.parent_y)) =
          some ((updateBody dt b).x, (updateBody dt b).y) := by
  intro dt bs i b hb h0 hps j o ho hchild hdist
  rw [tickStep, hb]
  simp only [tickBody]
  rw [if_neg h0, if_pos hps, List.getElem?_map, ho]
  simp only [Option.map_some']
  rw [reparent, if_pos (show isChildKind (updateBody dt b).type o.type = true ∧ _ from
    ⟨hchild, hdist⟩)]

/-- C3 witness input: a planet whose position update (with `dt = 0`) leaves it
at `(100, 0)`. -/
noncomputable def c3Planet : AnimBody where
  name := "P"
  type := "planet"
  x := 100
  y := 0
  radius := 10
  orbit_radius := 100
  angle := 0
  parent_x := 0
  parent_y := 0
  id := 0
  orbit_shape := "circle"
  orbit_eccentricity := 0
  orbit_rotation := 0

/-- C3 witness input: a moon whose recorded parent position `(100.5, 0)` is
within distance 1 of the planet's updated position. -/
noncomputable def c3Moon : AnimBody where
  name := "M"
  type := "moon"
  x := 120
  y := 0
  radius := 2
  orbit_radius := 20
  angle := 0
  parent_x := 100.5
  parent_y := 0
  id := 1
  orbit_shape := "circle"
  orbit_eccentricity := 0
  orbit_rotation := 0

/-- C3 witness: the moon half a unit away from the moved planet is re-parented
to the planet's updated position. -/
theorem reparent_on_new_position_witness :
    Real.sqrt ((c3Moon.parent_x - (updateBody 0 c3Planet).x) ^ 2 +
      (c3Moon.parent_y - (updateBody 0 c3Planet).y) ^ 2) < 1 ∧
    ((tickStep 0 [c3Planet, c3Moon] 0)[1]?).map (fun q => (q.parent_x, q.parent_y)) =
      some ((updateBody 0 c3Planet).x, (updateBody 0 c3Planet).y) := by
  have hcirc : ¬(c3Planet.orbit_shape = "ellipse" ∧ c3Planet.orbit_eccentricity > 0) := by
    rw [show c3Planet.orbit_shape = "circle" from rfl]
    simp
  have hx : (updateBody 0 c3Planet).x = 100 := by
    rw [(updateBody_circle 0 c3Planet hcirc).1]
    rw [show c3Planet.parent_x = (0 : ℝ) from rfl,
      show c3Planet.orbit_radius = (100 : ℝ) from rfl,
      show c3Planet.angle = (0 : ℝ) from rfl]
    simp
  have hy : (updateBody 0 c3Planet).y = 0 := by
    rw [(updateBody_circle 0 c3Planet hcirc).2]
    rw [show c3Planet.parent_y = (0 : ℝ) from rfl,
      show c3Planet.angle = (0 : ℝ) from rfl]
    simp
  have hdist : Real.sqrt ((c3Moon.parent_x - (updateBody 0 c3Planet).x) ^ 2 +
      (c3Moon.parent_y - (updateBody 0 c3Planet).y) ^ 2) < 1 := by
    rw [hx, hy, show c3Moon.parent_x = (100.5 : ℝ) from rfl,
      show c3Moon.parent_y = (0 : ℝ) from rfl]
    rw [show ((100.5 : ℝ) - 100) ^ 2 + ((0 : ℝ) - 0) ^ 2 = 0.25 by norm_num]
    exact (Real.sqrt_lt' (by norm_num)).mpr (by norm_num)
  refine ⟨hdist, ?_⟩
  exact reparent_on_new_position 0 [c3Planet, c3Moon] 0 c3Planet rfl
    (by rw [show c3Planet.orbit_radius = (100 : ℝ) from rfl]; norm_num)
    (Or.inl rfl) 1 c3Moon rfl (by decide) hdist

/-- C3 counterexample input: a planet on a wide orbit (radius 40000), placed
at angle `-(pi/2)`, i.e. at `(0, -40000)` around an orbit center at the
origin, which moves about 4 scene units in one accepted 0.1-second tick. -/
noncomputable def c3xPlanet : AnimBody where
  name := "P"
  type := "planet"
  x := 0
  y := -40000
  radius := 10
  orbit_radius := 40000
  angle := -(Real.pi / 2)
  parent_x := 0
  parent_y := 0
  id := 0
  orbit_shape := "circle"
  orbit_eccentricity := 0
  orbit_rotation := 0

/-- C3 counterexample input: a moon whose recorded parent position is exactly
the planet's pre-update position `(0, -40000)` (distance 0 < 1). -/
noncomputable def c3xMoon : AnimBody where
  name := "M"
  type := "moon"
  x := 0
  y := -40000
  radius := 2
  orbit_radius := 0
  angle := 0
  parent_x := 0
  parent_y := -40000
  id := 1
  orbit_shape := "circle"
  orbit_eccentricity := 0
  orbit_rotation := 0

/-- C3, counterexample: the moon's recorded parent position coincides exactly
(distance 0 < 1) with the planet's pre-update position, so the claim requires
it to be re-set to the planet's new position; but in one accepted tick
(`dt = 0.1`) the planet moves about 4 scene units, the distance test against
the post-update position fails, and the moon's recorded parent stays at the
old position, which differs from the planet's new position. -/
theorem reparent_pre_update_counterexample :
    c3xMoon.parent_x = c3xPlanet.x ∧ c3xMoon.parent_y = c3xPlanet.y ∧
    isChildKind c3xPlanet.type c3xMoon.type = true ∧
    Real.sqrt ((c3xMoon.parent_x - c3xPlanet.x) ^ 2 +
      (c3xMoon.parent_y - c3xPlanet.y) ^ 2) < 1 ∧
    ((animate 0.1 [c3xPlanet, c3xMoon])[1]?).map (fun q => (q.parent_x, q.parent_y)) =
      some (c3xMoon.parent_x, c3xMoon.parent_y) ∧
    ((animate 0.1 [c3xPlanet, c3xMoon])[0]?).map AnimBody.y ≠ some c3xMoon.parent_y := by
  have hsq40000 : Real.sqrt 40000 = 200 := by
    rw [show (40000 : ℝ) = 200 ^ 2 by norm_num]
    exact Real.sqrt_sq (by norm_num)
  have hspeed : tickSpeed c3xPlanet = 0.001 := by
    simp only [tickSpeed]
    rw [if_neg (show ¬(c3xPlanet.type = "moon") by decide)]
    rw [show c3xPlanet.orbit_radius = (40000 : ℝ) from rfl,
      show max (40000 : ℝ) 1 = 40000 by norm_num, hsq40000]
    norm_num
  have hangle : c3xPlanet.angle + tickSpeed c3xPlanet * 0.1 = 0.0001 - Real.pi / 2 := by
    rw [hspeed, show c3xPlanet.angle = -(Real.pi / 2) from rfl]
    ring
  have hcirc : ¬(c3xPlanet.orbit_shape = "ellipse" ∧ c3xPlanet.orbit_eccentricity > 0) := by
    rw [show c3xPlanet.orbit_shape = "circle" from rfl]
    simp
  have hcos : Real.cos ((0.0001 : ℝ) - Real.pi / 2) = Real.sin 0.0001 := by
    rw [show (0.0001 : ℝ) - Real.pi / 2 = -(Real.pi / 2 - 0.0001) by ring, Real.cos_neg,
      Real.cos_pi_div_two_sub]
  have hsin : Real.sin ((0.0001 : ℝ) - Real.pi / 2) = -Real.cos 0.0001 := by
    rw [show (0.0001 : ℝ) - Real.pi / 2 = -(Real.pi / 2 - 0.0001) by ring, Real.sin_neg,
      Real.sin_pi_div_two_sub]
  have hx1 : (updateBody 0.1 c3xPlanet).x = 40000 * Real.sin 0.0001 := by
    rw [(updateBody_circle 0.1 c3xPlanet hcirc).1, hangle, hcos,
      show c3xPlanet.parent_x = (0 : ℝ) from rfl,
      show c3xPlanet.orbit_radius = (40000 : ℝ) from rfl]
    ring
  have hy1 : (updateBody 0.1 c3xPlanet).y = -(40000 * Real.cos 0.0001) := by
    rw [(updateBody_circle 0.1 c3xPlanet hcirc).2, hangle, hsin,
      show c3xPlanet.parent_y = (0 : ℝ) from rfl,
      show c3xPlanet.orbit_radius = (40000 : ℝ) from rfl]
    ring
  have hsin_low : (2 : ℝ) ≤ 40000 * Real.sin 0.0001 := by
    have hpi4 := Real.pi_le_four
    have hpi3 := Real.pi_gt_three
    have hj : 2 / Real.pi * 0.0001 ≤ Real.sin 0.0001 :=
      Real.mul_le_sin (by norm_num) (by nlinarith)
    have h2pi : (0.00005 : ℝ) ≤ 2 / Real.pi * 0.0001 := by
      rw [div_mul_eq_mul_div, le_div_iff₀ (by nlinarith)]
      nlinarith
    nlinarith
  have hdistBig : ¬(Real.sqrt ((c3xMoon.parent_x - (updateBody 0.1 c3xPlanet).x) ^ 2 +
      (c3xMoon.parent_y - (updateBody 0.1 c3xPlanet).y) ^ 2) < 1) := by
    rw [show c3xMoon.parent_x = (0 : ℝ) from rfl,
      show c3xMoon.parent_y = (-40000 : ℝ) from rfl, hx1, hy1]
    apply not_lt.mpr
    apply Real.le_sqrt_of_sq_le
    nlinarith [hsin_low, sq_nonneg ((-40000 : ℝ) - -(40000 * Real.cos 0.0001))]
  have horbit : ¬(c3xPlanet.orbit_radius = 0) := by
    rw [show c3xPlanet.orbit_radius = (40000 : ℝ) from rfl]
    norm_num
  have e1 : tickStep 0.1 [c3xPlanet, c3xMoon] 0 =
      [reparent (updateBody 0.1 c3xPlanet) (updateBody 0.1 c3xPlanet),
       reparent (updateBody 0.1 c3xPlanet) c3xMoon] := by
    rw [tickStep, show ([c3xPlanet, c3xMoon] : List AnimBody)[0]? = some c3xPlanet from rfl]
    simp only [tickBody]
    rw [if_neg horbit, if_pos (Or.inl (show c3xPlanet.type = "planet" from rfl))]
    rfl
  have e2 : reparent (updateBody 0.1 c3xPlanet) (updateBody 0.1 c3xPlanet) =
      updateBody 0.1 c3xPlanet := by
    rw [reparent, if_neg]
    intro h
    exact absurd h.1 (by decide)
  have e3 : reparent (updateBody 0.1 c3xPlanet) c3xMoon = c3xMoon := by
    rw [reparent, if_neg]
    intro h
    exact hdistBig h.2
  have e4 : tickStep 0.1 [updateBody 0.1 c3xPlanet, c3xMoon] 1 =
      [updateBody 0.1 c3xPlanet, c3xMoon] := by
    rw [tickStep,
      show ([updateBody 0.1 c3xPlanet, c3xMoon] : List AnimBody)[1]? = some c3xMoon from rfl]
    simp only [tickBody]
    rw [if_pos (show c3xMoon.orbit_radius = 0 from rfl)]
  have hguard : ¬((0.1 : ℝ) < 0.1 ∨ (0.1 : ℝ) ≤ 0) := by norm_num
  have hmain : animate 0.1 [c3xPlanet, c3xMoon] = [updateBody 0.1 c3xPlanet, c3xMoon] := by
    rw [animate, if_neg hguard]
    rw [show animLoop 0.1 ([c3xPlanet, c3xMoon] : List AnimBody).length 0 [c3xPlanet, c3xMoon] =
        tickStep 0.1 (tickStep 0.1 [c3xPlanet, c3xMoon] 0) 1 from rfl]
    rw [e1, e2, e3, e4]
  refine ⟨rfl, rfl, by decide, ?_, ?_, ?_⟩
  · rw [show c3xMoon.parent_x = (0 : ℝ) from rfl,
      show c3xMoon.parent_y = (-40000 : ℝ) from rfl,
      show c3xPlanet.x = (0 : ℝ) from rfl, show c3xPlanet.y = (-40000 : ℝ) from rfl]
    rw [show ((0 : ℝ) - 0) ^ 2 + ((-40000 : ℝ) - -40000) ^ 2 = 0 by norm_num]
    rw [Real.sqrt_zero]
    norm_num
  · rw [hmain]
    rfl
  · rw [hmain]
    intro hcontra
    have h1 : (updateBody 0.1 c3xPlanet).y = c3xMoon.parent_y :=
      Option.some.inj hcontra
    rw [hy1, show c3xMoon.parent_y = (-40000 : ℝ) from rfl] at h1
    have h2 : Real.cos 0.0001 = 1 := by linarith
    have h3 : (0.0001 : ℝ) = 0 := by
      have hb1 : -(2 * Real.pi) < (0.0001 : ℝ) := by nlinarith [Real.pi_gt_three]
      have hb2 : (0.0001 : ℝ) < 2 * Real.pi := by nlinarith [Real.pi_gt_three]
      exact (Real.cos_eq_one_iff_of_lt_of_lt hb1 hb2).mp h2
    norm_num at h3

/-! ## Layout resolver: invariants of the placement phases -/

lemma foldl_preserves {α β : Type} (P : α → Prop) (f : α → β → α) :
    ∀ (l : List β) (s : α), P s → (∀ s b, P s → P (f s b)) → P (l.foldl f s) := by
  intro l
  induction l with
  | nil => intro s hs _; exact hs
  | cons hd tl ih => intro s hs hstep; exact ih (f s hd) (hstep s hd hs) hstep

lemma foldl_congr_preserves {α β : Type} (P : α → Prop) (f g : α → β → α) :
    ∀ (l : List β) (s : α), P s → (∀ s b, P s → f s b = g s b ∧ P (f s b)) →
      l.foldl f s = l.foldl g s ∧ P (l.foldl f s) := by
  intro l
  induction l with
  | nil => intro s hs _; exact ⟨rfl, hs⟩
  | cons hd tl ih =>
      intro s hs hstep
      obtain ⟨heq, hP⟩ := hstep s hd hs
      obtain ⟨heq2, hP2⟩ := ih (f s hd) hP hstep
      exact ⟨by rw [List.foldl_cons, List.foldl_cons, ← heq, heq2], hP2⟩

lemma set_present {α : Type} (l : List α) (j : ℕ) (a : α) (h : l[j]? = some a) :
    l.set j a = l := by
  apply List.ext_getElem?
  intro n
  by_cases hn : n = j
  · subst hn
    rw [List.getElem?_set_self (List.getElem?_eq_some_iff.mp h).1]
    exact h.symm
  · exact List.getElem?_set_ne fun hh => hn hh.symm

/-- A parent name carried by no body in the list is not found by the lookup. -/
lemma lookupBody_eq_none (l : List Body) (p : String)
    (h : ∀ b ∈ l, b.name ≠ p) : lookupBody l p = none := by
  rw [lookupBody, List.getLast?_eq_none_iff]
  rw [List.filter_eq_nil_iff]
  intro b hb
  simp [h b hb]

lemma placePrimary_map_name (cx cy : ℝ) :
    ∀ l : List Body, (placePrimary cx cy l).map Body.name = l.map Body.name := by
  intro l
  induction l with
  | nil => rfl
  | cons hd tl ih =>
      rw [placePrimary]
      by_cases h : hd.type = "star" ∧ hd.parent = ""
      · rw [if_pos h]
        simp [setPrimary]
      · rw [if_neg h]
        simp [ih]

lemma placePrimary_map_has (cx cy : ℝ) :
    ∀ l : List Body,
      (placePrimary cx cy l).map Body.has_start_position = l.map Body.has_start_position := by
  intro l
  induction l with
  | nil => rfl
  | cons hd tl ih =>
      rw [placePrimary]
      by_cases h : hd.type = "star" ∧ hd.parent = ""
      · rw [if_pos h]
        simp [setPrimary]
      · rw [if_neg h]
        simp [ih]

lemma placePrimary_getElem_ne_star (cx cy : ℝ) :
    ∀ (l : List Body) (i : ℕ) (b : Body), l[i]? = some b → b.type ≠ "star" →
      (placePrimary cx cy l)[i]? = some b := by
  intro l
  induction l with
  | nil => intro i b hi; simp at hi
  | cons hd tl ih =>
      intro i b hi hstar
      rw [placePrimary]
      by_cases h : hd.type = "star" ∧ hd.parent = ""
      · rw [if_pos h]
        match i with
        | 0 =>
            have : hd = b := by simpa using hi
            subst this
            exact absurd h.1 hstar
        | j + 1 => simpa using hi
      · rw [if_neg h]
        match i with
        | 0 => simpa using hi
        | j + 1 =>
            have := ih j b (by simpa using hi) hstar
            simpa using this

lemma placeCompanions_map_name (rand : ℕ → ℝ) (hp : Bool) (px py : ℝ) :
    ∀ (l : List Body) (k : ℕ),
      ((placeCompanions rand hp px py l k).1).map Body.name = l.map Body.name := by
  intro l
  induction l with
  | nil => intro k; rfl
  | cons hd tl ih =>
      intro k
      simp only [placeCompanions]
      by_cases h : hd.type = "star" ∧ hd.parent ≠ "" ∧ hp = true
      · rw [if_pos h]
        simp [ih]
      · rw [if_neg h]
        simp [ih]

lemma placeCompanions_map_has (rand : ℕ → ℝ) (hp : Bool) (px py : ℝ) :
    ∀ (l : List Body) (k : ℕ),
      ((placeCompanions rand hp px py l k).1).map Body.has_start_position =
        l.map Body.has_start_position := by
  intro l
  induction l with
  | nil => intro k; rfl
  | cons hd tl ih =>
      intro k
      simp only [placeCompanions]
      by_cases h : hd.type = "star" ∧ hd.parent ≠ "" ∧ hp = true
      · rw [if_pos h]
        simp [ih]
      · rw [if_neg h]
        simp [ih]

lemma placeCompanions_getElem_ne_star (rand : ℕ → ℝ) (hp : Bool) (px py : ℝ) :
    ∀ (l : List Body) (k : ℕ) (i : ℕ) (b : Body), l[i]? = some b → b.type ≠ "star" →
      ((placeCompanions rand hp px py l k).1)[i]? = some b := by
  intro l
  induction l with
  | nil => intro k i b hi; simp at hi
  | cons hd tl ih =>
      intro k i b hi hstar
      simp only [placeCompanions]
      by_cases h : hd.type = "star" ∧ hd.parent ≠ "" ∧ hp = true
      · rw [if_pos h]
        match i with
        | 0 =>
            have : hd = b := by simpa using hi
            subst this
            exact absurd h.1 hstar
        | j + 1 =>
            have := ih (if hd.has_start_position then k else k + 1) j b
              (by simpa using hi) hstar
            simpa using this
      · rw [if_neg h]
        match i with
        | 0 => simpa using hi
        | j + 1 =>
            have := ih k j b (by simpa using hi) hstar
            simpa using this

lemma passStep_map_name (rand : ℕ → ℝ) (s : List Body × ℕ) (j : ℕ) :
    ((passStep rand s j).1).map Body.name = s.1.map Body.name := by
  rw [passStep]
  cases hj : s.1[j]? with
  | none => rfl
  | some b =>
      rw [passBody]
      by_cases h1 : b.x ≠ 0 ∨ b.y ≠ 0
      · rw [if_pos h1]
      · rw [if_neg h1]
        by_cases h2 : b.parent = ""
        · rw [if_pos h2]
        · rw [if_neg h2]
          cases hlook : lookupBody s.1 b.parent with
          | none => rfl
          | some parent =>
              simp only [passPlace]
              by_cases h3 : parent.x ≠ 0 ∨ parent.y ≠ 0 ∨
                  (parent.type = "star" ∧ parent.parent = "")
              · rw [if_pos h3]
                rw [List.map_set]
                exact set_present _ j _ (by rw [List.getElem?_map, hj]; rfl)
              · rw [if_neg h3]

lemma passStep_map_has (rand : ℕ → ℝ) (s : List Body × ℕ) (j : ℕ) :
    ((passStep rand s j).1).map Body.has_start_position =
      s.1.map Body.has_start_position := by
  rw [passStep]
  cases hj : s.1[j]? with
  | none => rfl
  | some b =>
      rw [passBody]
      by_cases h1 : b.x ≠ 0 ∨ b.y ≠ 0
      · rw [if_pos h1]
      · rw [if_neg h1]
        by_cases h2 : b.parent = ""
        · rw [if_pos h2]
        · rw [if_neg h2]
          cases hlook : lookupBody s.1 b.parent with
          | none => rfl
          | some parent =>
              simp only [passPlace]
              by_cases h3 : parent.x ≠ 0 ∨ parent.y ≠ 0 ∨
                  (parent.type = "star" ∧ parent.parent = "")
              · rw [if_pos h3]
                rw [List.map_set]
                exact set_present _ j _ (by rw [List.getElem?_map, hj]; rfl)
              · rw [if_neg h3]

lemma passStep_getElem_ne (rand : ℕ → ℝ) (s : List Body × ℕ) (i j : ℕ) (hne : i ≠ j) :
    ((passStep rand s j).1)[i]? = s.1[i]? := by
  rw [passStep]
  cases hj : s.1[j]? with
  | none => rfl
  | some b =>
      rw [passBody]
      by_cases h1 : b.x ≠ 0 ∨ b.y ≠ 0
      · rw [if_pos h1]
      · rw [if_neg h1]
        by_cases h2 : b.parent = ""
        · rw [if_pos h2]
        · rw [if_neg h2]
          cases hlook : lookupBody s.1 b.parent with
          | none => rfl
          | some parent =>
              simp only [passPlace]
              by_cases h3 : parent.x ≠ 0 ∨ parent.y ≠ 0 ∨
                  (parent.type = "star" ∧ parent.parent = "")
              · rw [if_pos h3]
                exact List.getElem?_set_ne fun hh => hne hh.symm
              · rw [if_neg h3]

/-- A pass iteration leaves the body at index `i` (and the whole state)
unchanged when that body is unplaced, has a non-empty parent name, and the
lookup misses. -/
lemma passStep_misses (rand : ℕ → ℝ) (s : List Body × ℕ) (i : ℕ) (b : Body)
    (hb : s.1[i]? = some b) (hx : b.x = 0) (hy : b.y = 0) (hpar : b.parent ≠ "")
    (hnone : lookupBody s.1 b.parent = none) : passStep rand s i = s := by
  rw [passStep, hb, passBody, if_neg (by simp [hx, hy]), if_neg hpar, hnone, passPlace]

/-- C7 (amended): a non-star body whose parent names no body in the loaded set
is never placed: after the whole resolution it still sits at the origin
`(0, 0)` and no failure occurs (the resolver is a total function).  (A *star*
with a nonexistent parent is instead positioned around the primary star by
the companion loop, which never checks that the parent exists.) -/
theorem missing_parent_stays_at_origin :
    ∀ (rand : ℕ → ℝ) (cx cy : ℝ) (bodies : List Body) (i : ℕ) (b : Body),
      bodies[i]? = some b → b.type ≠ "star" → b.x = 0 → b.y = 0 → b.parent ≠ "" →
      (∀ b2 ∈ bodies, b2.name ≠ b.parent) →
      ((calculate_positions rand cx cy bodies)[i]?).map (fun q => (q.x, q.y)) =
        some (0, 0) := by
  intro rand cx cy bodies i b hb hstar hx hy hpar hghost
  have h1 : (placePrimary cx cy bodies)[i]? = some b :=
    placePrimary_getElem_ne_star cx cy bodies i b hb hstar
  have h2 : ((placeCompanions rand (hasPrimaryStar bodies) cx cy
      (placePrimary cx cy bodies) 0).1)[i]? = some b :=
    placeCompanions_getElem_ne_star _ _ _ _ _ 0 i b h1 hstar
  have hnames2 : ((placeCompanions rand (hasPrimaryStar bodies) cx cy
      (placePrimary cx cy bodies) 0).1).map Body.name = bodies.map Body.name := by
    rw [placeCompanions_map_name, placePrimary_map_name]
  have hstep : ∀ (s : List Body × ℕ) (j : ℕ),
      (s.1.map Body.name = bodies.map Body.name ∧ s.1[i]? = some b) →
      ((passStep rand s j).1.map Body.name = bodies.map Body.name ∧
        (passStep rand s j).1[i]? = some b) := by
    rintro s j ⟨hn, he⟩
    refine ⟨by rw [passStep_map_name]; exact hn, ?_⟩
    by_cases hij : i = j
    · subst hij
      have hnone : lookupBody s.1 b.parent = none := by
        apply lookupBody_eq_none
        intro b2 hb2
        have hmem : b2.name ∈ bodies.map Body.name := by
          rw [← hn]
          exact List.mem_map_of_mem _ hb2
        obtain ⟨b3, hb3, hb3n⟩ := List.mem_map.mp hmem
        rw [← hb3n]
        exact hghost b3 hb3
      rw [passStep_misses rand s i b he hx hy hpar hnone]
      exact he
    · rw [passStep_getElem_ne rand s i j hij]
      exact he
  have hpass : ∀ s : List Body × ℕ,
      (s.1.map Body.name = bodies.map Body.name ∧ s.1[i]? = some b) →
      ((onePass rand s).1.map Body.name = bodies.map Body.name ∧
        (onePass rand s).1[i]? = some b) := by
    intro s hs
    rw [onePass]
    exact foldl_preserves _ (passStep rand) (List.range s.1.length) s hs hstep
  have hrun : ∀ (n : ℕ) (s : List Body × ℕ),
      (s.1.map Body.name = bodies.map Body.name ∧ s.1[i]? = some b) →
      ((runPasses rand n s).1.map Body.name = bodies.map Body.name ∧
        (runPasses rand n s).1[i]? = some b) := by
    intro n
    induction n with
    | zero => intro s hs; exact hs
    | succ m ih =>
        intro s hs
        rw [runPasses]
        exact ih _ (hpass s hs)
  have hfinal := hrun 5 _ ⟨hnames2, h2⟩
  rw [calculate_positions, hfinal.2]
  simp [hx, hy]

/-- C7 witness input: a primary star. -/
noncomputable def w7Sun : Body :=
  mkBody "Sun" "star" "" 0 30 none true "circle" 0 0 0

/-- C7 witness input: a planet whose parent name matches no loaded body. -/
noncomputable def w7Orphan : Body :=
  mkBody "Orphan" "planet" "Phantom" 300 8 (some 0) true "circle" 0 0 0

/-- C7 witness: the orphaned planet ends at the origin. -/
theorem missing_parent_stays_at_origin_witness :
    ((calculate_positions (fun _ => 0) 1200 1200 [w7Sun, w7Orphan])[1]?).map
      (fun q => (q.x, q.y)) = some (0, 0) := by
  apply missing_parent_stays_at_origin (fun _ => 0) 1200 1200 [w7Sun, w7Orphan] 1 w7Orphan
    (by simp) (by decide) rfl rfl (by decide)
  intro b2 hb2
  rcases List.mem_cons.mp hb2 with rfl | hb2
  · decide
  rcases List.mem_cons.mp hb2 with rfl | hb2
  · decide
  · simp at hb2

/-! ## Fixpoint of the passes once every body is placed -/

lemma foldl_fixed {α β : Type} (f : α → β → α) (s : α) :
    ∀ l : List β, (∀ x, f s x = s) → l.foldl f s = s := by
  intro l h
  induction l with
  | nil => rfl
  | cons hd tl ih =>
      rw [List.foldl_cons, h hd]
      exact ih

/-- A pass iteration skips bodies that are already positioned. -/
lemma passStep_skip (rand : ℕ → ℝ) (s : List Body × ℕ) (j : ℕ)
    (h : ∀ b ∈ s.1, b.x ≠ 0 ∨ b.y ≠ 0) : passStep rand s j = s := by
  rw [passStep]
  cases hj : s.1[j]? with
  | none => rfl
  | some b => rw [passBody, if_pos (h b (List.getElem?_mem hj))]

/-- A full pass is the identity once every body is positioned. -/
lemma onePass_fixed (rand : ℕ → ℝ) (s : List Body × ℕ)
    (h : ∀ b ∈ s.1, b.x ≠ 0 ∨ b.y ≠ 0) : onePass rand s = s := by
  rw [onePass]
  exact foldl_fixed _ s _ fun j => passStep_skip rand s j h

lemma runPasses_fixed (rand : ℕ → ℝ) (s : List Body × ℕ)
    (h : ∀ b ∈ s.1, b.x ≠ 0 ∨ b.y ≠ 0) : ∀ n, runPasses rand n s = s := by
  intro n
  induction n with
  | zero => rfl
  | succ m ih =>
      rw [runPasses, onePass_fixed rand s h]
      exact ih

/-- C7 counterexample input: the primary star. -/
noncomputable def c7Sun : Body :=
  mkBody "Sun" "star" "" 0 30 none true "circle" 0 0 0

/-- C7 counterexample input: a *star* whose parent names no loaded body, with
an explicit start angle of 90 degrees. -/
noncomputable def c7Lost : Body :=
  mkBody "Lost" "star" "Ghost" 100 10 (some 90) true "circle" 0 0 0

/-- The record the companion loop produces for `c7Lost`. -/
noncomputable def c7LostP : Body :=
  { c7Lost with
    angle := c7Lost.angle
    x := 1200 + c7Lost.orbit_distance * Real.cos c7Lost.angle
    y := 1200 + c7Lost.orbit_distance * Real.sin c7Lost.angle
    parent_x := 1200
    parent_y := 1200 }

/-- C7, counterexample: a star whose parent names a body that does not exist
is *not* left at the origin — the companion-star loop places any star with a
non-empty parent around the primary without checking that the parent exists,
so `Lost` ends at `(1300, 1200)`, not `(0, 0)`. -/
theorem missing_parent_star_counterexample :
    c7Lost.parent = "Ghost" ∧
    (∀ b2 ∈ [c7Sun, c7Lost], b2.name ≠ "Ghost") ∧
    ((calculate_positions (fun _ => 0) 1200 1200 [c7Sun, c7Lost])[1]?).map
      (fun q => (q.x, q.y)) = some (1300, 1200) ∧
    ((1300 : ℝ), (1200 : ℝ)) ≠ ((0 : ℝ), (0 : ℝ)) := by
  have hang : c7Lost.angle = 0 := by
    rw [show c7Lost.angle = ((90 : ℝ) - 90) * Real.pi / 180 from rfl]
    norm_num
  have horb : c7Lost.orbit_distance = 100 := rfl
  have ep : placePrimary 1200 1200 [c7Sun, c7Lost] =
      [setPrimary 1200 1200 c7Sun, c7Lost] := by
    rw [placePrimary, if_pos ⟨rfl, rfl⟩]
  have ehp : hasPrimaryStar [c7Sun, c7Lost] = true := by decide
  have ec : placeCompanions (fun _ => (0 : ℝ)) true 1200 1200
      [setPrimary 1200 1200 c7Sun, c7Lost] 0 =
      ([setPrimary 1200 1200 c7Sun, c7LostP], 0) := by
    have f1 : (setPrimary 1200 1200 c7Sun).parent = "" := rfl
    have f2 : c7Lost.type = "star" := rfl
    have f3 : c7Lost.parent = "Ghost" := rfl
    have f4 : c7Lost.has_start_position = true := rfl
    simp [placeCompanions, f1, f2, f3, f4, c7LostP]
  have efix : runPasses (fun _ => (0 : ℝ)) 5 ([setPrimary 1200 1200 c7Sun, c7LostP], 0) =
      ([setPrimary 1200 1200 c7Sun, c7LostP], 0) := by
    apply runPasses_fixed
    intro bb hbb
    rcases List.mem_cons.mp hbb with rfl | hbb
    · left
      rw [show (setPrimary 1200 1200 c7Sun).x = 1200 from rfl]
      norm_num
    rcases List.mem_cons.mp hbb with rfl | hbb
    · left
      rw [show c7LostP.x = 1200 + c7Lost.orbit_distance * Real.cos c7Lost.angle from rfl,
        hang, horb, Real.cos_zero]
      norm_num
    · simp at hbb
  refine ⟨rfl, ?_, ?_, by norm_num⟩
  · intro b2 hb2
    rcases List.mem_cons.mp hb2 with rfl | hb2
    · decide
    rcases List.mem_cons.mp hb2 with rfl | hb2
    · decide
    · simp at hb2
  · rw [calculate_positions, ep, ehp, ec, efix]
    rw [show ([setPrimary 1200 1200 c7Sun, c7LostP] : List Body)[1]? = some c7LostP from rfl,
      Option.map_some']
    rw [show c7LostP.x = 1200 + c7Lost.orbit_distance * Real.cos c7Lost.angle from rfl,
      show c7LostP.y = 1200 + c7Lost.orbit_distance * Real.sin c7Lost.angle from rfl,
      hang, horb, Real.cos_zero, Real.sin_zero]
    norm_num

/-! ## Determinism with explicit start angles (C8) -/

lemma all_has_of_map_eq {l l' : List Body}
    (h : l'.map Body.has_start_position = l.map Body.has_start_position)
    (hall : ∀ b ∈ l, b.has_start_position = true) :
    ∀ b ∈ l', b.has_start_position = true := by
  intro b hb
  have hmem : b.has_start_position ∈ l'.map Body.has_start_position :=
    List.mem_map_of_mem _ hb
  rw [h] at hmem
  obtain ⟨a, ha, hae⟩ := List.mem_map.mp hmem
  rw [← hae]
  exact hall a ha

/-- With every start angle explicit, the companion loop consumes no random
draw: its result does not depend on the random stream. -/
lemma placeCompanions_congr (rand1 rand2 : ℕ → ℝ) (hp : Bool) (px py : ℝ) :
    ∀ (l : List Body) (k : ℕ), (∀ b ∈ l, b.has_start_position = true) →
      placeCompanions rand1 hp px py l k = placeCompanions rand2 hp px py l k := by
  intro l
  induction l with
  | nil => intro k _; rfl
  | cons hd tl ih =>
      intro k hall
      have hhd : hd.has_start_position = true := hall hd (List.mem_cons_self hd tl)
      have htl : ∀ b ∈ tl, b.has_start_position = true :=
        fun b hb => hall b (List.mem_cons_of_mem hd hb)
      simp only [placeCompanions, hhd, eq_self_iff_true, if_true]
      rw [ih k htl]

/-- With every start angle explicit, a pass iteration consumes no random
draw. -/
lemma passStep_congr (rand1 rand2 : ℕ → ℝ) (s : List Body × ℕ) (j : ℕ)
    (hall : ∀ b ∈ s.1, b.has_start_position = true) :
    passStep rand1 s j = passStep rand2 s j := by
  rw [passStep, passStep]
  cases hj : s.1[j]? with
  | none => rfl
  | some b =>
      have hb : b.has_start_position = true := hall b (List.getElem?_mem hj)
      rw [passBody, passBody]
      by_cases h1 : b.x ≠ 0 ∨ b.y ≠ 0
      · rw [if_pos h1, if_pos h1]
      · rw [if_neg h1, if_neg h1]
        by_cases h2 : b.parent = ""
        · rw [if_pos h2, if_pos h2]
        · rw [if_neg h2, if_neg h2]
          cases hlook : lookupBody s.1 b.parent with
          | none => rfl
          | some parent =>
              simp only [passPlace, hb, eq_self_iff_true, if_true]

lemma onePass_congr (rand1 rand2 : ℕ → ℝ) (s : List Body × ℕ)
    (hall : ∀ b ∈ s.1, b.has_start_position = true) :
    onePass rand1 s = onePass rand2 s ∧
      (∀ b ∈ (onePass rand1 s).1, b.has_start_position = true) := by
  rw [onePass, onePass]
  exact foldl_congr_preserves (fun s => ∀ b ∈ s.1, b.has_start_position = true)
    (passStep rand1) (passStep rand2) (List.range s.1.length) s hall
    (fun s j hs => ⟨passStep_congr rand1 rand2 s j hs,
      all_has_of_map_eq (passStep_map_has rand1 s j) hs⟩)

lemma runPasses_congr (rand1 rand2 : ℕ → ℝ) :
    ∀ (n : ℕ) (s : List Body × ℕ), (∀ b ∈ s.1, b.has_start_position = true) →
      runPasses rand1 n s = runPasses rand2 n s := by
  intro n
  induction n with
  | zero => intro s _; rfl
  | succ m ih =>
      intro s hs
      rw [runPasses, runPasses]
      obtain ⟨heq, hP⟩ := onePass_congr rand1 rand2 s hs
      rw [← heq]
      exact ih _ hP

/-- C8: when every body carries an explicit start angle, the layout resolution
is a function of the body set alone — two runs with different random streams
(i.e. two runs of the process) produce identical `x, y, parent_x, parent_y`
values (identical whole records) for every body. -/
theorem explicit_angles_deterministic :
    ∀ (rand1 rand2 : ℕ → ℝ) (cx cy : ℝ) (bodies : List Body),
      (∀ b ∈ bodies, b.has_start_position = true) →
      calculate_positions rand1 cx cy bodies = calculate_positions rand2 cx cy bodies := by
  intro rand1 rand2 cx cy bodies hall
  rw [calculate_positions, calculate_positions]
  have hall1 : ∀ b ∈ placePrimary cx cy bodies, b.has_start_position = true :=
    all_has_of_map_eq (placePrimary_map_has cx cy bodies) hall
  rw [placeCompanions_congr rand1 rand2 (hasPrimaryStar bodies) cx cy
    (placePrimary cx cy bodies) 0 hall1]
  have hall2 : ∀ b ∈ (placeCompanions rand2 (hasPrimaryStar bodies) cx cy
      (placePrimary cx cy bodies) 0).1, b.has_start_position = true :=
    all_has_of_map_eq (placeCompanions_map_has rand2 (hasPrimaryStar bodies) cx cy
      (placePrimary cx cy bodies) 0) hall1
  rw [runPasses_congr rand1 rand2 5 _ hall2]

/-- C8 witness input: a primary star with an explicit angle. -/
noncomputable def c8Sun : Body :=
  mkBody "Sun" "star" "" 0 30 (some 0) true "circle" 0 0 0

/-- C8 witness input: a planet with an explicit angle. -/
noncomputable def c8Planet : Body :=
  mkBody "P" "planet" "Sun" 200 10 (some 45) true "circle" 0 0 0

/-- C8 witness: two runs with visibly different random streams agree on a
fully explicit body set. -/
theorem explicit_angles_deterministic_witness :
    calculate_positions (fun _ => 7) 1200 1200 [c8Sun, c8Planet] =
      calculate_positions (fun _ => 3) 1200 1200 [c8Sun, c8Planet] :=
  explicit_angles_deterministic (fun _ => 7) (fun _ => 3) 1200 1200 [c8Sun, c8Planet]
    (by
      intro b hb
      rcases List.mem_cons.mp hb with rfl | hb
      · rfl
      rcases List.mem_cons.mp hb with rfl | hb
      · rfl
      · simp at hb)

/-! ## End-to-end layout of the 3-row example (C1) -/

/-- Any list that is a permutation of a 3-element list is one of its six
arrangements. -/
lemma perm_three {α : Type} {a b c : α} {l : List α} (h : l.Perm [a, b, c]) :
    l = [a, b, c] ∨ l = [a, c, b] ∨ l = [b, a, c] ∨
    l = [b, c, a] ∨ l = [c, a, b] ∨ l = [c, b, a] := by
  obtain ⟨x, y, z, rfl⟩ : ∃ x y z, l = [x, y, z] := by
    have hlen : l.length = 3 := by rw [h.length_eq]; rfl
    match l, hlen with
    | [x, y, z], _ => exact ⟨x, y, z, rfl⟩
  have two : ∀ u v p q : α, [u, v].Perm [p, q] → (u = p ∧ v = q) ∨ (u = q ∧ v = p) := by
    intro u v p q hpq
    have hu : u = p ∨ u = q := by simpa using hpq.mem_iff.mp (by simp)
    rcases hu with rfl | rfl
    · left
      have h2 : [v].Perm [q] := hpq.cons_inv
      exact ⟨rfl, by simpa using h2.mem_iff.mp (by simp)⟩
    · right
      have h2 : [v].Perm [p] := (hpq.trans (List.Perm.swap u p [])).cons_inv
      exact ⟨rfl, by simpa using h2.mem_iff.mp (by simp)⟩
  have hx : x = a ∨ x = b ∨ x = c := by simpa using h.mem_iff.mp (by simp)
  rcases hx with rfl | rfl | rfl
  · have h2 : [y, z].Perm [b, c] := h.cons_inv
    rcases two y z b c h2 with ⟨rfl, rfl⟩ | ⟨rfl, rfl⟩
    · exact Or.inl rfl
    · exact Or.inr (Or.inl rfl)
  · have hswap : ([a, x, c] : List α).Perm (x :: [a, c]) := List.Perm.swap x a [c]
    have h2 : [y, z].Perm [a, c] := (h.trans hswap).cons_inv
    rcases two y z a c h2 with ⟨rfl, rfl⟩ | ⟨rfl, rfl⟩
    · exact Or.inr (Or.inr (Or.inl rfl))
    · exact Or.inr (Or.inr (Or.inr (Or.inl rfl)))
  · have hstep : ([a, b, x] : List α).Perm (x :: [a, b]) :=
      (List.Perm.cons a (List.Perm.swap x b [])).trans (List.Perm.swap x a [b])
    have h2 : [y, z].Perm [a, b] := (h.trans hstep).cons_inv
    rcases two y z a b h2 with ⟨rfl, rfl⟩ | ⟨rfl, rfl⟩
    · exact Or.inr (Or.inr (Or.inr (Or.inr (Or.inl rfl))))
    · exact Or.inr (Or.inr (Or.inr (Or.inr (Or.inr rfl))))

/-- A pass iteration is the identity when the body at the visited index is
already positioned. -/
lemma passStep_skip_at (rand : ℕ → ℝ) (s : List Body × ℕ) (i : ℕ) (b : Body)
    (hb : s.1[i]? = some b) (h : b.x ≠ 0 ∨ b.y ≠ 0) : passStep rand s i = s := by
  rw [passStep, hb, passBody, if_pos h]

/-- A pass iteration placing the (explicitly angled) body at index `i`
relative to its looked-up, already-positioned parent. -/
lemma passStep_place (rand : ℕ → ℝ) (s : List Body × ℕ) (i : ℕ) (b parent : Body)
    (hb : s.1[i]? = some b) (hx : b.x = 0) (hy : b.y = 0) (hpar : b.parent ≠ "")
    (hlook : lookupBody s.1 b.parent = some parent)
    (hcond : parent.x ≠ 0 ∨ parent.y ≠ 0 ∨ (parent.type = "star" ∧ parent.parent = ""))
    (hhas : b.has_start_position = true) :
    passStep rand s i =
      (s.1.set i { b with
        angle := b.angle
        x := parent.x + b.orbit_distance * Real.cos b.angle
        y := parent.y + b.orbit_distance * Real.sin b.angle
        parent_x := parent.x
        parent_y := parent.y }, s.2) := by
  rw [passStep, hb, passBody, if_neg (by simp [hx, hy]), if_neg hpar, hlook]
  simp only [passPlace, hhas, eq_self_iff_true, if_true]
  rw [if_pos hcond]

/-- A pass iteration that finds the parent but defers because the parent is
itself not positioned yet (and is not the primary star). -/
lemma passStep_defer (rand : ℕ → ℝ) (s : List Body × ℕ) (i : ℕ) (b parent : Body)
    (hb : s.1[i]? = some b) (hx : b.x = 0) (hy : b.y = 0) (hpar : b.parent ≠ "")
    (hlook : lookupBody s.1 b.parent = some parent)
    (hcond : ¬(parent.x ≠ 0 ∨ parent.y ≠ 0 ∨ (parent.type = "star" ∧ parent.parent = ""))) :
    passStep rand s i = s := by
  rw [passStep, hb, passBody, if_neg (by simp [hx, hy]), if_neg hpar, hlook]
  simp only [passPlace]
  rw [if_neg hcond]

/-- With no companion stars in the list, the companion loop is the identity. -/
lemma placeCompanions_none (rand : ℕ → ℝ) (hp : Bool) (px py : ℝ) :
    ∀ (l : List Body) (k : ℕ),
      (∀ b ∈ l, ¬(b.type = "star" ∧ b.parent ≠ "" ∧ hp = true)) →
      placeCompanions rand hp px py l k = (l, k) := by
  intro l
  induction l with
  | nil => intro k _; rfl
  | cons hd tl ih =>
      intro k hall
      simp only [placeCompanions]
      rw [if_neg (hall hd (List.mem_cons_self hd tl))]
      rw [ih k fun b hb => hall b (List.mem_cons_of_mem hd hb)]

/-- A pass over a 3-element state is three `passStep`s. -/
lemma onePass_three (rand : ℕ → ℝ) (s : List Body × ℕ) (h : s.1.length = 3) :
    onePass rand s = passStep rand (passStep rand (passStep rand s 0) 1) 2 := by
  rw [onePass, h]
  rfl

/-- C1 input row: the primary star. -/
noncomputable def c1Sun : Body :=
  mkBody "Sun" "star" "" 0 30 none true "circle" 0 0 0

/-- C1 input row: a planet orbiting the star at distance 500, start angle 0°. -/
noncomputable def c1Planet : Body :=
  mkBody "Planet" "planet" "Sun" 500 12 (some 0) true "circle" 0 0 0

/-- C1 input row: a moon orbiting the planet at distance 50, start angle 90°. -/
noncomputable def c1Moon : Body :=
  mkBody "Moon" "moon" "Planet" 50 4 (some 90) true "circle" 0 0 0

/-- The primary star as placed at the scene center. -/
noncomputable def c1SunP : Body := setPrimary 1200 1200 c1Sun

/-- The planet as placed by a pass relative to the placed star. -/
noncomputable def c1PlanetP : Body :=
  { c1Planet with
    angle := c1Planet.angle
    x := c1SunP.x + c1Planet.orbit_distance * Real.cos c1Planet.angle
    y := c1SunP.y + c1Planet.orbit_distance * Real.sin c1Planet.angle
    parent_x := c1SunP.x
    parent_y := c1SunP.y }

/-- The moon as placed by a pass relative to the placed planet. -/
noncomputable def c1MoonP : Body :=
  { c1Moon with
    angle := c1Moon.angle
    x := c1PlanetP.x + c1Moon.orbit_distance * Real.cos c1Moon.angle
    y := c1PlanetP.y + c1Moon.orbit_distance * Real.sin c1Moon.angle
    parent_x := c1PlanetP.x
    parent_y := c1PlanetP.y }

lemma c1Planet_angle : c1Planet.angle = -(Real.pi / 2) := by
  rw [show c1Planet.angle = ((0 : ℝ) - 90) * Real.pi / 180 from rfl]
  ring

lemma c1Moon_angle : c1Moon.angle = 0 := by
  rw [show c1Moon.angle = ((90 : ℝ) - 90) * Real.pi / 180 from rfl]
  ring

lemma c1PlanetP_x : c1PlanetP.x = 1200 := by
  rw [show c1PlanetP.x = c1SunP.x + c1Planet.orbit_distance * Real.cos c1Planet.angle from rfl,
    show c1SunP.x = (1200 : ℝ) from rfl, show c1Planet.orbit_distance = (500 : ℝ) from rfl,
    c1Planet_angle, Real.cos_neg, Real.cos_pi_div_two]
  norm_num

lemma c1PlanetP_y : c1PlanetP.y = 700 := by
  rw [show c1PlanetP.y = c1SunP.y + c1Planet.orbit_distance * Real.sin c1Planet.angle from rfl,
    show c1SunP.y = (1200 : ℝ) from rfl, show c1Planet.orbit_distance = (500 : ℝ) from rfl,
    c1Planet_angle, Real.sin_neg, Real.sin_pi_div_two]
  norm_num

lemma c1MoonP_x : c1MoonP.x = 1250 := by
  rw [show c1MoonP.x = c1PlanetP.x + c1Moon.orbit_distance * Real.cos c1Moon.angle from rfl,
    c1PlanetP_x, show c1Moon.orbit_distance = (50 : ℝ) from rfl, c1Moon_angle, Real.cos_zero]
  norm_num

lemma c1MoonP_y : c1MoonP.y = 700 := by
  rw [show c1MoonP.y = c1PlanetP.y + c1Moon.orbit_distance * Real.sin c1Moon.angle from rfl,
    c1PlanetP_y, show c1Moon.orbit_distance = (50 : ℝ) from rfl, c1Moon_angle, Real.sin_zero]
  norm_num

lemma c1SunP_name : c1SunP.name = "Sun" := rfl

lemma c1Planet_name : c1Planet.name = "Planet" := rfl

lemma c1Moon_name : c1Moon.name = "Moon" := rfl

lemma c1PlanetP_name : c1PlanetP.name = "Planet" := rfl

lemma c1MoonP_name : c1MoonP.name = "Moon" := rfl

lemma c1SunP_nzero : c1SunP.x ≠ 0 ∨ c1SunP.y ≠ 0 :=
  Or.inl (by rw [show c1SunP.x = (1200 : ℝ) from rfl]; norm_num)

lemma c1PlanetP_nzero : c1PlanetP.x ≠ 0 ∨ c1PlanetP.y ≠ 0 :=
  Or.inl (by rw [c1PlanetP_x]; norm_num)

lemma c1MoonP_nzero : c1MoonP.x ≠ 0 ∨ c1MoonP.y ≠ 0 :=
  Or.inl (by rw [c1MoonP_x]; norm_num)

lemma c1SunP_cond :
    c1SunP.x ≠ 0 ∨ c1SunP.y ≠ 0 ∨ (c1SunP.type = "star" ∧ c1SunP.parent = "") :=
  Or.inl (by rw [show c1SunP.x = (1200 : ℝ) from rfl]; norm_num)

lemma c1PlanetP_cond :
    c1PlanetP.x ≠ 0 ∨ c1PlanetP.y ≠ 0 ∨ (c1PlanetP.type = "star" ∧ c1PlanetP.parent = "") :=
  Or.inl (by rw [c1PlanetP_x]; norm_num)

lemma c1Planet_nocond :
    ¬(c1Planet.x ≠ 0 ∨ c1Planet.y ≠ 0 ∨ (c1Planet.type = "star" ∧ c1Planet.parent = "")) := by
  simp [show c1Planet.x = (0 : ℝ) from rfl, show c1Planet.y = (0 : ℝ) from rfl,
    show c1Planet.type = "planet" from rfl]

lemma c1Planet_not_primary : ¬(c1Planet.type = "star" ∧ c1Planet.parent = "") :=
  fun h => absurd h.1 (by decide)

lemma c1Moon_not_primary : ¬(c1Moon.type = "star" ∧ c1Moon.parent = "") :=
  fun h => absurd h.1 (by decide)

lemma c1SunP_nc : ¬(c1SunP.type = "star" ∧ c1SunP.parent ≠ "" ∧ true = true) :=
  fun h => h.2.1 rfl

lemma c1Planet_nc : ¬(c1Planet.type = "star" ∧ c1Planet.parent ≠ "" ∧ true = true) :=
  fun h => absurd h.1 (by decide)

lemma c1Moon_nc : ¬(c1Moon.type = "star" ∧ c1Moon.parent ≠ "" ∧ true = true) :=
  fun h => absurd h.1 (by decide)

lemma lkA1 : lookupBody [c1SunP, c1Planet, c1Moon] "Sun" = some c1SunP := by
  simp [lookupBody, c1SunP_name, c1Planet_name, c1Moon_name]

lemma lkA2 : lookupBody [c1SunP, c1PlanetP, c1Moon] "Planet" = some c1PlanetP := by
  simp [lookupBody, c1SunP_name, c1PlanetP_name, c1Moon_name]

lemma lkB1 : lookupBody [c1SunP, c1Moon, c1Planet] "Planet" = some c1Planet := by
  simp [lookupBody, c1SunP_name, c1Moon_name, c1Planet_name]

lemma lkB2 : lookupBody [c1SunP, c1Moon, c1Planet] "Sun" = some c1SunP := by
  simp [lookupBody, c1SunP_name, c1Moon_name, c1Planet_name]

lemma lkB3 : lookupBody [c1SunP, c1Moon, c1PlanetP] "Planet" = some c1PlanetP := by
  simp [lookupBody, c1SunP_name, c1Moon_name, c1PlanetP_name]

lemma lkC1 : lookupBody [c1Planet, c1SunP, c1Moon] "Sun" = some c1SunP := by
  simp [lookupBody, c1Planet_name, c1SunP_name, c1Moon_name]

lemma lkC2 : lookupBody [c1PlanetP, c1SunP, c1Moon] "Planet" = some c1PlanetP := by
  simp [lookupBody, c1PlanetP_name, c1SunP_name, c1Moon_name]

lemma lkD1 : lookupBody [c1Planet, c1Moon, c1SunP] "Sun" = some c1SunP := by
  simp [lookupBody, c1Planet_name, c1Moon_name, c1SunP_name]

lemma lkD2 : lookupBody [c1PlanetP, c1Moon, c1SunP] "Planet" = some c1PlanetP := by
  simp [lookupBody, c1PlanetP_name, c1Moon_name, c1SunP_name]

lemma lkE1 : lookupBody [c1Moon, c1SunP, c1Planet] "Planet" = some c1Planet := by
  simp [lookupBody, c1Moon_name, c1SunP_name, c1Planet_name]

lemma lkE2 : lookupBody [c1Moon, c1SunP, c1Planet] "Sun" = some c1SunP := by
  simp [lookupBody, c1Moon_name, c1SunP_name, c1Planet_name]

lemma lkE3 : lookupBody [c1Moon, c1SunP, c1PlanetP] "Planet" = some c1PlanetP := by
  simp [lookupBody, c1Moon_name, c1SunP_name, c1PlanetP_name]

lemma lkF1 : lookupBody [c1Moon, c1Planet, c1SunP] "Planet" = some c1Planet := by
  simp [lookupBody, c1Moon_name, c1Planet_name, c1SunP_name]

lemma lkF2 : lookupBody [c1Moon, c1Planet, c1SunP] "Sun" = some c1SunP := by
  simp [lookupBody, c1Moon_name, c1Planet_name, c1SunP_name]

lemma lkF3 : lookupBody [c1Moon, c1PlanetP, c1SunP] "Planet" = some c1PlanetP := by
  simp [lookupBody, c1Moon_name, c1PlanetP_name, c1SunP_name]

lemma c1_place_a1 (rand : ℕ → ℝ) :
    passStep rand ([c1SunP, c1Planet, c1Moon], 0) 1 = ([c1SunP, c1PlanetP, c1Moon], 0) := by
  rw [passStep_place rand ([c1SunP, c1Planet, c1Moon], 0) 1 c1Planet c1SunP rfl rfl rfl
    (by decide) lkA1 c1SunP_cond rfl]
  rfl

lemma c1_place_a2 (rand : ℕ → ℝ) :
    passStep rand ([c1SunP, c1PlanetP, c1Moon], 0) 2 = ([c1SunP, c1PlanetP, c1MoonP], 0) := by
  rw [passStep_place rand ([c1SunP, c1PlanetP, c1Moon], 0) 2 c1Moon c1PlanetP rfl rfl rfl
    (by decide) lkA2 c1PlanetP_cond rfl]
  rfl

lemma c1_place_b1 (rand : ℕ → ℝ) :
    passStep rand ([c1SunP, c1Moon, c1Planet], 0) 2 = ([c1SunP, c1Moon, c1PlanetP], 0) := by
  rw [passStep_place rand ([c1SunP, c1Moon, c1Planet], 0) 2 c1Planet c1SunP rfl rfl rfl
    (by decide) lkB2 c1SunP_cond rfl]
  rfl

lemma c1_place_b2 (rand : ℕ → ℝ) :
    passStep rand ([c1SunP, c1Moon, c1PlanetP], 0) 1 = ([c1SunP, c1MoonP, c1PlanetP], 0) := by
  rw [passStep_place rand ([c1SunP, c1Moon, c1PlanetP], 0) 1 c1Moon c1PlanetP rfl rfl rfl
    (by decide) lkB3 c1PlanetP_cond rfl]
  rfl

lemma c1_place_c1 (rand : ℕ → ℝ) :
    passStep rand ([c1Planet, c1SunP, c1Moon], 0) 0 = ([c1PlanetP, c1SunP, c1Moon], 0) := by
  rw [passStep_place rand ([c1Planet, c1SunP, c1Moon], 0) 0 c1Planet c1SunP rfl rfl rfl
    (by decide) lkC1 c1SunP_cond rfl]
  rfl

lemma c1_place_c2 (rand : ℕ → ℝ) :
    passStep rand ([c1PlanetP, c1SunP, c1Moon], 0) 2 = ([c1PlanetP, c1SunP, c1MoonP], 0) := by
  rw [passStep_place rand ([c1PlanetP, c1SunP, c1Moon], 0) 2 c1Moon c1PlanetP rfl rfl rfl
    (by decide) lkC2 c1PlanetP_cond rfl]
  rfl

lemma c1_place_d1 (rand : ℕ → ℝ) :
    passStep rand ([c1Planet, c1Moon, c1SunP], 0) 0 = ([c1PlanetP, c1Moon, c1SunP], 0) := by
  rw [passStep_place rand ([c1Planet, c1Moon, c1SunP], 0) 0 c1Planet c1SunP rfl rfl rfl
    (by decide) lkD1 c1SunP_cond rfl]
  rfl

lemma c1_place_d2 (rand : ℕ → ℝ) :
    passStep rand ([c1PlanetP, c1Moon, c1SunP], 0) 1 = ([c1PlanetP, c1MoonP, c1SunP], 0) := by
  rw [passStep_place rand ([c1PlanetP, c1Moon, c1SunP], 0) 1 c1Moon c1PlanetP rfl rfl rfl
    (by decide) lkD2 c1PlanetP_cond rfl]
  rfl

lemma c1_place_e1 (rand : ℕ → ℝ) :
    passStep rand ([c1Moon, c1SunP, c1Planet], 0) 2 = ([c1Moon, c1SunP, c1PlanetP], 0) := by
  rw [passStep_place rand ([c1Moon, c1SunP, c1Planet], 0) 2 c1Planet c1SunP rfl rfl rfl
    (by decide) lkE2 c1SunP_cond rfl]
  rfl

lemma c1_place_e2 (rand : ℕ → ℝ) :
    passStep rand ([c1Moon, c1SunP, c1PlanetP], 0) 0 = ([c1MoonP, c1SunP, c1PlanetP], 0) := by
  rw [passStep_place rand ([c1Moon, c1SunP, c1PlanetP], 0) 0 c1Moon c1PlanetP rfl rfl rfl
    (by decide) lkE3 c1PlanetP_cond rfl]
  rfl

lemma c1_place_f1 (rand : ℕ → ℝ) :
    passStep rand ([c1Moon, c1Planet, c1SunP], 0) 1 = ([c1Moon, c1PlanetP, c1SunP], 0) := by
  rw [passStep_place rand ([c1Moon, c1Planet, c1SunP], 0) 1 c1Planet c1SunP rfl rfl rfl
    (by decide) lkF2 c1SunP_cond rfl]
  rfl

lemma c1_place_f2 (rand : ℕ → ℝ) :
    passStep rand ([c1Moon, c1PlanetP, c1SunP], 0) 0 = ([c1MoonP, c1PlanetP, c1SunP], 0) := by
  rw [passStep_place rand ([c1Moon, c1PlanetP, c1SunP], 0) 0 c1Moon c1PlanetP rfl rfl rfl
    (by decide) lkF3 c1PlanetP_cond rfl]
  rfl

lemma c1_pass_a (rand : ℕ → ℝ) :
    onePass rand ([c1SunP, c1Planet, c1Moon], 0) = ([c1SunP, c1PlanetP, c1MoonP], 0) := by
  rw [onePass_three rand ([c1SunP, c1Planet, c1Moon], 0) rfl,
    passStep_skip_at rand ([c1SunP, c1Planet, c1Moon], 0) 0 c1SunP rfl c1SunP_nzero,
    c1_place_a1 rand, c1_place_a2 rand]

lemma c1_pass_b1 (rand : ℕ → ℝ) :
    onePass rand ([c1SunP, c1Moon, c1Planet], 0) = ([c1SunP, c1Moon, c1PlanetP], 0) := by
  rw [onePass_three rand ([c1SunP, c1Moon, c1Planet], 0) rfl,
    passStep_skip_at rand ([c1SunP, c1Moon, c1Planet], 0) 0 c1SunP rfl c1SunP_nzero,
    passStep_defer rand ([c1SunP, c1Moon, c1Planet], 0) 1 c1Moon c1Planet rfl rfl rfl
      (by decide) lkB1 c1Planet_nocond,
    c1_place_b1 rand]

lemma c1_pass_b2 (rand : ℕ → ℝ) :
    onePass rand ([c1SunP, c1Moon, c1PlanetP], 0) = ([c1SunP, c1MoonP, c1PlanetP], 0) := by
  rw [onePass_three rand ([c1SunP, c1Moon, c1PlanetP], 0) rfl,
    passStep_skip_at rand ([c1SunP, c1Moon, c1PlanetP], 0) 0 c1SunP rfl c1SunP_nzero,
    c1_place_b2 rand,
    passStep_skip_at rand ([c1SunP, c1MoonP, c1PlanetP], 0) 2 c1PlanetP rfl c1PlanetP_nzero]

lemma c1_pass_c (rand : ℕ → ℝ) :
    onePass rand ([c1Planet, c1SunP, c1Moon], 0) = ([c1PlanetP, c1SunP, c1MoonP], 0) := by
  rw [onePass_three rand ([c1Planet, c1SunP, c1Moon], 0) rfl, c1_place_c1 rand,
    passStep_skip_at rand ([c1PlanetP, c1SunP, c1Moon], 0) 1 c1SunP rfl c1SunP_nzero,
    c1_place_c2 rand]

lemma c1_pass_d (rand : ℕ → ℝ) :
    onePass rand ([c1Planet, c1Moon, c1SunP], 0) = ([c1PlanetP, c1MoonP, c1SunP], 0) := by
  rw [onePass_three rand ([c1Planet, c1Moon, c1SunP], 0) rfl, c1_place_d1 rand, c1_place_d2 rand,
    passStep_skip_at rand ([c1PlanetP, c1MoonP, c1SunP], 0) 2 c1SunP rfl c1SunP_nzero]

lemma c1_pass_e1 (rand : ℕ → ℝ) :
    onePass rand ([c1Moon, c1SunP, c1Planet], 0) = ([c1Moon, c1SunP, c1PlanetP], 0) := by
  rw [onePass_three rand ([c1Moon, c1SunP, c1Planet], 0) rfl,
    passStep_defer rand ([c1Moon, c1SunP, c1Planet], 0) 0 c1Moon c1Planet rfl rfl rfl
      (by decide) lkE1 c1Planet_nocond,
    passStep_skip_at rand ([c1Moon, c1SunP, c1Planet], 0) 1 c1SunP rfl c1SunP_nzero,
    c1_place_e1 rand]

lemma c1_pass_e2 (rand : ℕ → ℝ) :
    onePass rand ([c1Moon, c1SunP, c1PlanetP], 0) = ([c1MoonP, c1SunP, c1PlanetP], 0) := by
  rw [onePass_three rand ([c1Moon, c1SunP, c1PlanetP], 0) rfl, c1_place_e2 rand,
    passStep_skip_at rand ([c1MoonP, c1SunP, c1PlanetP], 0) 1 c1SunP rfl c1SunP_nzero,
    passStep_skip_at rand ([c1MoonP, c1SunP, c1PlanetP], 0) 2 c1PlanetP rfl c1PlanetP_nzero]

lemma c1_pass_f1 (rand : ℕ → ℝ) :
    onePass rand ([c1Moon, c1Planet, c1SunP], 0) = ([c1Moon, c1PlanetP, c1SunP], 0) := by
  rw [onePass_three rand ([c1Moon, c1Planet, c1SunP], 0) rfl,
    passStep_defer rand ([c1Moon, c1Planet, c1SunP], 0) 0 c1Moon c1Planet rfl rfl rfl
      (by decide) lkF1 c1Planet_nocond,
    c1_place_f1 rand,
    passStep_skip_at rand ([c1Moon, c1PlanetP, c1SunP], 0) 2 c1SunP rfl c1SunP_nzero]

lemma c1_pass_f2 (rand : ℕ → ℝ) :
    onePass rand ([c1Moon, c1PlanetP, c1SunP], 0) = ([c1MoonP, c1PlanetP, c1SunP], 0) := by
  rw [onePass_three rand ([c1Moon, c1PlanetP, c1SunP], 0) rfl, c1_place_f2 rand,
    passStep_skip_at rand ([c1MoonP, c1PlanetP, c1SunP], 0) 1 c1PlanetP rfl c1PlanetP_nzero,
    passStep_skip_at rand ([c1MoonP, c1PlanetP, c1SunP], 0) 2 c1SunP rfl c1SunP_nzero]

lemma c1_prim_a : placePrimary 1200 1200 [c1Sun, c1Planet, c1Moon] =
    [c1SunP, c1Planet, c1Moon] := by
  rw [placePrimary, if_pos ⟨rfl, rfl⟩]
  rfl

lemma c1_prim_b : placePrimary 1200 1200 [c1Sun, c1Moon, c1Planet] =
    [c1SunP, c1Moon, c1Planet] := by
  rw [placePrimary, if_pos ⟨rfl, rfl⟩]
  rfl

lemma c1_prim_c : placePrimary 1200 1200 [c1Planet, c1Sun, c1Moon] =
    [c1Planet, c1SunP, c1Moon] := by
  rw [placePrimary, if_neg c1Planet_not_primary, placePrimary, if_pos ⟨rfl, rfl⟩]
  rfl

lemma c1_prim_d : placePrimary 1200 1200 [c1Planet, c1Moon, c1Sun] =
    [c1Planet, c1Moon, c1SunP] := by
  rw [placePrimary, if_neg c1Planet_not_primary, placePrimary, if_neg c1Moon_not_primary,
    placePrimary, if_pos ⟨rfl, rfl⟩]
  rfl

lemma c1_prim_e : placePrimary 1200 1200 [c1Moon, c1Sun, c1Planet] =
    [c1Moon, c1SunP, c1Planet] := by
  rw [placePrimary, if_neg c1Moon_not_primary, placePrimary, if_pos ⟨rfl, rfl⟩]
  rfl

lemma c1_prim_f : placePrimary 1200 1200 [c1Moon, c1Planet, c1Sun] =
    [c1Moon, c1Planet, c1SunP] := by
  rw [placePrimary, if_neg c1Moon_not_primary, placePrimary, if_neg c1Planet_not_primary,
    placePrimary, if_pos ⟨rfl, rfl⟩]
  rfl

lemma c1_hp_a : hasPrimaryStar [c1Sun, c1Planet, c1Moon] = true := by decide

lemma c1_hp_b : hasPrimaryStar [c1Sun, c1Moon, c1Planet] = true := by decide

lemma c1_hp_c : hasPrimaryStar [c1Planet, c1Sun, c1Moon] = true := by decide

lemma c1_hp_d : hasPrimaryStar [c1Planet, c1Moon, c1Sun] = true := by decide

lemma c1_hp_e : hasPrimaryStar [c1Moon, c1Sun, c1Planet] = true := by decide

lemma c1_hp_f : hasPrimaryStar [c1Moon, c1Planet, c1Sun] = true := by decide

lemma c1_comp_a (rand : ℕ → ℝ) :
    placeCompanions rand true 1200 1200 [c1SunP, c1Planet, c1Moon] 0 =
      ([c1SunP, c1Planet, c1Moon], 0) := by
  apply placeCompanions_none
  intro b hb
  rcases List.mem_cons.mp hb with rfl | hb
  · exact c1SunP_nc
  rcases List.mem_cons.mp hb with rfl | hb
  · exact c1Planet_nc
  rcases List.mem_cons.mp hb with rfl | hb
  · exact c1Moon_nc
  · simp at hb

lemma c1_comp_b (rand : ℕ → ℝ) :
    placeCompanions rand true 1200 1200 [c1SunP, c1Moon, c1Planet] 0 =
      ([c1SunP, c1Moon, c1Planet], 0) := by
  apply placeCompanions_none
  intro b hb
  rcases List.mem_cons.mp hb with rfl | hb
  · exact c1SunP_nc
  rcases List.mem_cons.mp hb with rfl | hb
  · exact c1Moon_nc
  rcases List.mem_cons.mp hb with rfl | hb
  · exact c1Planet_nc
  · simp at hb

lemma c1_comp_c (rand : ℕ → ℝ) :
    placeCompanions rand true 1200 1200 [c1Planet, c1SunP, c1Moon] 0 =
      ([c1Planet, c1SunP, c1Moon], 0) := by
  apply placeCompanions_none
  intro b hb
  rcases List.mem_cons.mp hb with rfl | hb
  · exact c1Planet_nc
  rcases List.mem_cons.mp hb with rfl | hb
  · exact c1SunP_nc
  rcases List.mem_cons.mp hb with rfl | hb
  · exact c1Moon_nc
  · simp at hb

lemma c1_comp_d (rand : ℕ → ℝ) :
    placeCompanions rand true 1200 1200 [c1Planet, c1Moon, c1SunP] 0 =
      ([c1Planet, c1Moon, c1SunP], 0) := by
  apply placeCompanions_none
  intro b hb
  rcases List.mem_cons.mp hb with rfl | hb
  · exact c1Planet_nc
  rcases List.mem_cons.mp hb with rfl | hb
  · exact c1Moon_nc
  rcases List.mem_cons.mp hb with rfl | hb
  · exact c1SunP_nc
  · simp at hb

lemma c1_comp_e (rand : ℕ → ℝ) :
    placeCompanions rand true 1200 1200 [c1Moon, c1SunP, c1Planet] 0 =
      ([c1Moon, c1SunP, c1Planet], 0) := by
  apply placeCompanions_none
  intro b hb
  rcases List.mem_cons.mp hb with rfl | hb
  · exact c1Moon_nc
  rcases List.mem_cons.mp hb with rfl | hb
  · exact c1SunP_nc
  rcases List.mem_cons.mp hb with rfl | hb
  · exact c1Planet_nc
  · simp at hb

lemma c1_comp_f (rand : ℕ → ℝ) :
    placeCompanions rand true 1200 1200 [c1Moon, c1Planet, c1SunP] 0 =
      ([c1Moon, c1Planet, c1SunP], 0) := by
  apply placeCompanions_none
  intro b hb
  rcases List.mem_cons.mp hb with rfl | hb
  · exact c1Moon_nc
  rcases List.mem_cons.mp hb with rfl | hb
  · exact c1Planet_nc
  rcases List.mem_cons.mp hb with rfl | hb
  · exact c1SunP_nc
  · simp at hb

/-- Full evaluation of the resolver on the moon-first row order. -/
lemma c1_res_e (rand : ℕ → ℝ) :
    calculate_positions rand 1200 1200 [c1Moon, c1Sun, c1Planet] =
      [c1MoonP, c1SunP, c1PlanetP] := by
  rw [calculate_positions, c1_prim_e, c1_hp_e, c1_comp_e rand,
    show runPasses rand 5 (([c1Moon, c1SunP, c1Planet], 0) : List Body × ℕ) =
      runPasses rand 4 (onePass rand ([c1Moon, c1SunP, c1Planet], 0)) from rfl,
    c1_pass_e1 rand,
    show runPasses rand 4 (([c1Moon, c1SunP, c1PlanetP], 0) : List Body × ℕ) =
      runPasses rand 3 (onePass rand ([c1Moon, c1SunP, c1PlanetP], 0)) from rfl,
    c1_pass_e2 rand,
    runPasses_fixed rand ([c1MoonP, c1SunP, c1PlanetP], 0) (by
      intro bb hbb
      rcases List.mem_cons.mp hbb with rfl | hbb
      · exact c1MoonP_nzero
      rcases List.mem_cons.mp hbb with rfl | hbb
      · exact c1SunP_nzero
      rcases List.mem_cons.mp hbb with rfl | hbb
      · exact c1PlanetP_nzero
      · simp at hbb) 3]

/-- C1: on the 3-row input — primary star (empty parent, distance 0), planet
orbiting it at distance 500 with start angle 0°, moon orbiting the planet at
distance 50 with start angle 90° — the resolver (scene 2400 x 2400, center
`(1200, 1200)`) places the star exactly at the center, the planet exactly at
center + (0, -500), and the moon exactly at planet + (50, 0), whatever the
order of the three rows and whatever the random stream. -/
theorem calculate_positions_three_row_layout :
    ∀ (rand : ℕ → ℝ) (l : List Body), l.Perm [c1Sun, c1Planet, c1Moon] →
      ∀ b ∈ calculate_positions rand 1200 1200 l,
        (b.name = "Sun" → (b.x, b.y) = (1200, 1200)) ∧
        (b.name = "Planet" → (b.x, b.y) = (1200, 700)) ∧
        (b.name = "Moon" → (b.x, b.y) = (1250, 700)) := by
  intro rand l hperm
  have hgS : (c1SunP.name = "Sun" → (c1SunP.x, c1SunP.y) = (1200, 1200)) ∧
      (c1SunP.name = "Planet" → (c1SunP.x, c1SunP.y) = (1200, 700)) ∧
      (c1SunP.name = "Moon" → (c1SunP.x, c1SunP.y) = (1250, 700)) :=
    ⟨fun _ => rfl, fun hh => absurd hh (by decide), fun hh => absurd hh (by decide)⟩
  have hgP : (c1PlanetP.name = "Sun" → (c1PlanetP.x, c1PlanetP.y) = (1200, 1200)) ∧
      (c1PlanetP.name = "Planet" → (c1PlanetP.x, c1PlanetP.y) = (1200, 700)) ∧
      (c1PlanetP.name = "Moon" → (c1PlanetP.x, c1PlanetP.y) = (1250, 700)) :=
    ⟨fun hh => absurd hh (by decide), fun _ => by rw [c1PlanetP_x, c1PlanetP_y],
      fun hh => absurd hh (by decide)⟩
  have hgM : (c1MoonP.name = "Sun" → (c1MoonP.x, c1MoonP.y) = (1200, 1200)) ∧
      (c1MoonP.name = "Planet" → (c1MoonP.x, c1MoonP.y) = (1200, 700)) ∧
      (c1MoonP.name = "Moon" → (c1MoonP.x, c1MoonP.y) = (1250, 700)) :=
    ⟨fun hh => absurd hh (by decide), fun hh => absurd hh (by decide),
      fun _ => by rw [c1MoonP_x, c1MoonP_y]⟩
  rcases perm_three hperm with rfl | rfl | rfl | rfl | rfl | rfl
  · have hres : calculate_positions rand 1200 1200 [c1Sun, c1Planet, c1Moon] =
        [c1SunP, c1PlanetP, c1MoonP] := by
      rw [calculate_positions, c1_prim_a, c1_hp_a, c1_comp_a rand,
        show runPasses rand 5 (([c1SunP, c1Planet, c1Moon], 0) : List Body × ℕ) =
          runPasses rand 4 (onePass rand ([c1SunP, c1Planet, c1Moon], 0)) from rfl,
        c1_pass_a rand,
        runPasses_fixed rand ([c1SunP, c1PlanetP, c1MoonP], 0) (by
          intro bb hbb
          rcases List.mem_cons.mp hbb with rfl | hbb
          · exact c1SunP_nzero
          rcases List.mem_cons.mp hbb with rfl | hbb
          · exact c1PlanetP_nzero
          rcases List.mem_cons.mp hbb with rfl | hbb
          · exact c1MoonP_nzero
          · simp at hbb) 4]
    intro b hb
    rw [hres] at hb
    rcases List.mem_cons.mp hb with rfl | hb
    · exact hgS
    rcases List.mem_cons.mp hb with rfl | hb
    · exact hgP
    rcases List.mem_cons.mp hb with rfl | hb
    · exact hgM
    · simp at hb
  · have hres : calculate_positions rand 1200 1200 [c1Sun, c1Moon, c1Planet] =
        [c1SunP, c1MoonP, c1PlanetP] := by
      rw [calculate_positions, c1_prim_b, c1_hp_b, c1_comp_b rand,
        show runPasses rand 5 (([c1SunP, c1Moon, c1Planet], 0) : List Body × ℕ) =
          runPasses rand 4 (onePass rand ([c1SunP, c1Moon, c1Planet], 0)) from rfl,
        c1_pass_b1 rand,
        show runPasses rand 4 (([c1SunP, c1Moon, c1PlanetP], 0) : List Body × ℕ) =
          runPasses rand 3 (onePass rand ([c1SunP, c1Moon, c1PlanetP], 0)) from rfl,
        c1_pass_b2 rand,
        runPasses_fixed rand ([c1SunP, c1MoonP, c1PlanetP], 0) (by
          intro bb hbb
          rcases List.mem_cons.mp hbb with rfl | hbb
          · exact c1SunP_nzero
          rcases List.mem_cons.mp hbb with rfl | hbb
          · exact c1MoonP_nzero
          rcases List.mem_cons.mp hbb with rfl | hbb
          · exact c1PlanetP_nzero
          · simp at hbb) 3]
    intro b hb
    rw [hres] at hb
    rcases List.mem_cons.mp hb with rfl | hb
    · exact hgS
    rcases List.mem_cons.mp hb with rfl | hb
    · exact hgM
    rcases List.mem_cons.mp hb with rfl | hb
    · exact hgP
    · simp at hb
  · have hres : calculate_positions rand 1200 1200 [c1Planet, c1Sun, c1Moon] =
        [c1PlanetP, c1SunP, c1MoonP] := by
      rw [calculate_positions, c1_prim_c, c1_hp_c, c1_comp_c rand,
        show runPasses rand 5 (([c1Planet, c1SunP, c1Moon], 0) : List Body × ℕ) =
          runPasses rand 4 (onePass rand ([c1Planet, c1SunP, c1Moon], 0)) from rfl,
        c1_pass_c rand,
        runPasses_fixed rand ([c1PlanetP, c1SunP, c1MoonP], 0) (by
          intro bb hbb
          rcases List.mem_cons.mp hbb with rfl | hbb
          · exact c1PlanetP_nzero
          rcases List.mem_cons.mp hbb with rfl | hbb
          · exact c1SunP_nzero
          rcases List.mem_cons.mp hbb with rfl | hbb
          · exact c1MoonP_nzero
          · simp at hbb) 4]
    intro b hb
    rw [hres] at hb
    rcases List.mem_cons.mp hb with rfl | hb
    · exact hgP
    rcases List.mem_cons.mp hb with rfl | hb
    · exact hgS
    rcases List.mem_cons.mp hb with rfl | hb
    · exact hgM
    · simp at hb
  · have hres : calculate_positions rand 1200 1200 [c1Planet, c1Moon, c1Sun] =
        [c1PlanetP, c1MoonP, c1SunP] := by
      rw [calculate_positions, c1_prim_d, c1_hp_d, c1_comp_d rand,
        show runPasses rand 5 (([c1Planet, c1Moon, c1SunP], 0) : List Body × ℕ) =
          runPasses rand 4 (onePass rand ([c1Planet, c1Moon, c1SunP], 0)) from rfl,
        c1_pass_d rand,
        runPasses_fixed rand ([c1PlanetP, c1MoonP, c1SunP], 0) (by
          intro bb hbb
          rcases List.mem_cons.mp hbb with rfl | hbb
          · exact c1PlanetP_nzero
          rcases List.mem_cons.mp hbb with rfl | hbb
          · exact c1MoonP_nzero
          rcases List.mem_cons.mp hbb with rfl | hbb
          · exact c1SunP_nzero
          · simp at hbb) 4]
    intro b hb
    rw [hres] at hb
    rcases List.mem_cons.mp hb with rfl | hb
    · exact hgP
    rcases List.mem_cons.mp hb with rfl | hb
    · exact hgM
    rcases List.mem_cons.mp hb with rfl | hb
    · exact hgS
    · simp at hb
  · have hres : calculate_positions rand 1200 1200 [c1Moon, c1Sun, c1Planet] =
        [c1MoonP, c1SunP, c1PlanetP] := by
      rw [calculate_positions, c1_prim_e, c1_hp_e, c1_comp_e rand,
        show runPasses rand 5 (([c1Moon, c1SunP, c1Planet], 0) : List Body × ℕ) =
          runPasses rand 4 (onePass rand ([c1Moon, c1SunP, c1Planet], 0)) from rfl,
        c1_pass_e1 rand,
        show runPasses rand 4 (([c1Moon, c1SunP, c1PlanetP], 0) : List Body × ℕ) =
          runPasses rand 3 (onePass rand ([c1Moon, c1SunP, c1PlanetP], 0)) from rfl,
        c1_pass_e2 rand,
        runPasses_fixed rand ([c1MoonP, c1SunP, c1PlanetP], 0) (by
          intro bb hbb
          rcases List.mem_cons.mp hbb with rfl | hbb
          · exact c1MoonP_nzero
          rcases List.mem_cons.mp hbb with rfl | hbb
          · exact c1SunP_nzero
          rcases List.mem_cons.mp hbb with rfl | hbb
          · exact c1PlanetP_nzero
          · simp at hbb) 3]
    intro b hb
    rw [hres] at hb
    rcases List.mem_cons.mp hb with rfl | hb
    · exact hgM
    rcases List.mem_cons.mp hb with rfl | hb
    · exact hgS
    rcases List.mem_cons.mp hb with rfl | hb
    · exact hgP
    · simp at hb
  · have hres : calculate_positions rand 1200 1200 [c1Moon, c1Planet, c1Sun] =
        [c1MoonP, c1PlanetP, c1SunP] := by
      rw [calculate_positions, c1_prim_f, c1_hp_f, c1_comp_f rand,
        show runPasses rand 5 (([c1Moon, c1Planet, c1SunP], 0) : List Body × ℕ) =
          runPasses rand 4 (onePass rand ([c1Moon, c1Planet, c1SunP], 0)) from rfl,
        c1_pass_f1 rand,
        show runPasses rand 4 (([c1Moon, c1PlanetP, c1SunP], 0) : List Body × ℕ) =
          runPasses rand 3 (onePass rand ([c1Moon, c1PlanetP, c1SunP], 0)) from rfl,
        c1_pass_f2 rand,
        runPasses_fixed rand ([c1MoonP, c1PlanetP, c1SunP], 0) (by
          intro bb hbb
          rcases List.mem_cons.mp hbb with rfl | hbb
          · exact c1MoonP_nzero
          rcases List.mem_cons.mp hbb with rfl | hbb
          · exact c1PlanetP_nzero
          rcases List.mem_cons.mp hbb with rfl | hbb
          · exact c1SunP_nzero
          · simp at hbb) 3]
    intro b hb
    rw [hres] at hb
    rcases List.mem_cons.mp hb with rfl | hb
    · exact hgM
    rcases List.mem_cons.mp hb with rfl | hb
    · exact hgP
    rcases List.mem_cons.mp hb with rfl | hb
    · exact hgS
    · simp at hb

/-- C1 witness: the layout claim evaluated on the moon-first row order with a
concrete random stream. -/
theorem calculate_positions_three_row_layout_witness :
    c1SunP ∈ calculate_positions (fun _ => 0) 1200 1200 [c1Moon, c1Sun, c1Planet] ∧
    c1PlanetP ∈ calculate_positions (fun _ => 0) 1200 1200 [c1Moon, c1Sun, c1Planet] ∧
    c1MoonP ∈ calculate_positions (fun _ => 0) 1200 1200 [c1Moon, c1Sun, c1Planet] ∧
    (c1SunP.x, c1SunP.y) = ((1200 : ℝ), (1200 : ℝ)) ∧
    (c1PlanetP.x, c1PlanetP.y) = ((1200 : ℝ), (700 : ℝ)) ∧
    (c1MoonP.x, c1MoonP.y) = ((1250 : ℝ), (700 : ℝ)) := by
  have hperm : ([c1Moon, c1Sun, c1Planet] : List Body).Perm [c1Sun, c1Planet, c1Moon] :=
    (List.Perm.swap c1Sun c1Moon [c1Planet]).trans
      (List.Perm.cons c1Sun (List.Perm.swap c1Planet c1Moon []))
  have hres := c1_res_e (fun _ => 0)
  have hmS : c1SunP ∈ calculate_positions (fun _ => 0) 1200 1200 [c1Moon, c1Sun, c1Planet] := by
    rw [hres]; exact List.mem_cons_of_mem _ (List.mem_cons_self _ _)
  have hmP : c1PlanetP ∈
      calculate_positions (fun _ => 0) 1200 1200 [c1Moon, c1Sun, c1Planet] := by
    rw [hres]; exact List.mem_cons_of_mem _ (List.mem_cons_of_mem _ (List.mem_cons_self _ _))
  have hmM : c1MoonP ∈ calculate_positions (fun _ => 0) 1200 1200 [c1Moon, c1Sun, c1Planet] := by
    rw [hres]; exact List.mem_cons_self _ _
  have h := calculate_positions_three_row_layout (fun _ => 0) [c1Moon, c1Sun, c1Planet] hperm
  exact ⟨hmS, hmP, hmM, (h c1SunP hmS).1 rfl, (h c1PlanetP hmP).2.1 rfl,
    (h c1MoonP hmM).2.2 rfl⟩

end StarSystem
